import Mathlib

/-!
Verification of the technical-indicator computation engine of
`trading/management/commands/calculate_technical_indicators.py`.

Modelling conventions:
* Python `float` and `Decimal` arithmetic is idealised as exact rational
  arithmetic (`ℚ`).  `Decimal(str(x))` conversions are identities.
* A nullable numeric column is `Option ℚ`; Python truthiness of such a value
  (`if x:`) is `truthy`: `None` and `Decimal('0')` are falsy, everything else
  truthy.  `stock.current_price` and `stock.volume` are modelled as plain
  `ℚ` / `ℕ` where the value `0` plays the role of the falsy `None`, which is
  behaviourally identical because every read of them in this command is
  truthiness-guarded.
* `statistics.stdev` takes a floating-point square root, which has no exact
  rational counterpart; the engine is therefore parametrised by a square-root
  function `sq : ℚ → ℚ` applied to the exact sample variance.  Theorems about
  Bollinger bands assume only properties true of the real square root
  (for instance `sq 0 = 0`).
* Rational division by zero is `0` in Lean.  The source would raise a
  `ZeroDivisionError` at the single unguarded division (5-bar momentum with a
  zero close); all other divisions are guarded exactly as in the source.
-/

set_option maxRecDepth 100000
set_option maxHeartbeats 1600000

namespace Trading

/-- One daily OHLCV price bar (`StockPrice` row); the engine reads only
close, high, low and volume. -/
structure Bar where
  close : ℚ
  high : ℚ
  low : ℚ
  volume : ℕ
  deriving DecidableEq, Repr

/-- Python `l[-n:]` for `n > 0`: the last `n` elements (all of `l` when it is
shorter). -/
def lastN {α : Type} (n : ℕ) (l : List α) : List α := l.drop (l.length - n)

/-- Python `statistics.mean` on rationals: sum divided by length (junk value `0` on
the empty list, which the source never passes). -/
def listMean (l : List ℚ) : ℚ := l.sum / (l.length : ℚ)

/-- Python `min(l)` for nonempty `l`. -/
def listMin : List ℚ → ℚ
  | [] => 0
  | x :: xs => xs.foldl min x

/-- Python `max(l)` for nonempty `l`. -/
def listMax : List ℚ → ℚ
  | [] => 0
  | x :: xs => xs.foldl max x

/-- The sample variance computed inside `statistics.stdev`:
`Σ (x - mean)² / (n - 1)`. -/
def sampleVariance (l : List ℚ) : ℚ :=
  (l.map (fun x => (x - listMean l) ^ 2)).sum / ((l.length - 1 : ℕ) : ℚ)

/-- Python truthiness of a nullable Decimal: `None` and `0` are falsy. -/
def truthy (o : Option ℚ) : Prop := o.getD 0 ≠ 0

instance (o : Option ℚ) : Decidable (truthy o) := by
  unfold truthy; infer_instance

/-- Source `Command.calculate_ema` (lines 152-163): seed with the simple mean
of the first `period` closes, then fold the EMA recurrence
`ema_t = close_t * k + ema_(t-1) * (1-k)` with `k = 2/(period+1)` over the
rest; returns `0` when there are fewer than `period` prices. -/
def calculate_ema (prices : List ℚ) (period : ℕ) : ℚ :=
  if prices.length < period then 0
  else
    (prices.drop period).foldl
      (fun ema price =>
        price * (2 / ((period : ℚ) + 1)) + ema * (1 - 2 / ((period : ℚ) + 1)))
      (listMean (prices.take period))

/-- The `changes` list of `Command.calculate_rsi` (source lines 173-174):
`changes[i] = prices[i+1] - prices[i]`. -/
def rsi_changes (prices : List ℚ) : List ℚ :=
  ((prices.drop 1).zip prices).map (fun pr => pr.1 - pr.2)

/-- The `gains` list (source lines 175-179): the change when positive, else 0. -/
def rsi_gains (prices : List ℚ) : List ℚ :=
  (rsi_changes prices).map (fun c => if c > 0 then c else 0)

/-- The `losses` list (source lines 175-180): 0 when the change is positive,
else its absolute value. -/
def rsi_losses (prices : List ℚ) : List ℚ :=
  (rsi_changes prices).map (fun c => if c > 0 then 0 else |c|)

/-- Source `Command.calculate_rsi` (lines 165-194): simple rolling average of
the last `period` gains and losses; `100` when the average loss is zero. -/
def calculate_rsi (prices : List ℚ) (period : ℕ) : ℚ :=
  if prices.length < period + 1 then 50
  else if (rsi_gains prices).length < period then 50
  else if listMean (lastN period (rsi_losses prices)) = 0 then 100
  else 100 - 100 / (1 +
    listMean (lastN period (rsi_gains prices)) / listMean (lastN period (rsi_losses prices)))

/-- Source `Command.calculate_price_position` (lines 196-202): percentage
position of the current price relative to a moving average, `0` when either
argument is falsy. -/
def calculate_price_position (current_price moving_average : ℚ) : ℚ :=
  if current_price = 0 ∨ moving_average = 0 then 0
  else ((current_price - moving_average) / moving_average) * 100

/-- The `TechnicalIndicators` record (Django model): every numeric field is
nullable and null on creation; `trend_direction` defaults to `"neutral"` and
`overall_signal` to `"hold"`.  Fields this command never touches
(`sma_200_direction`, `last_updated`) are omitted. -/
@[ext]
structure TechnicalIndicators where
  sma_20 : Option ℚ := none
  sma_50 : Option ℚ := none
  sma_200 : Option ℚ := none
  ema_12 : Option ℚ := none
  ema_26 : Option ℚ := none
  ema_200 : Option ℚ := none
  ema_200_direction : Option String := none
  macd_line : Option ℚ := none
  macd_signal : Option ℚ := none
  macd_histogram : Option ℚ := none
  rsi_14 : Option ℚ := none
  bb_upper : Option ℚ := none
  bb_middle : Option ℚ := none
  bb_lower : Option ℚ := none
  bb_width : Option ℚ := none
  trend_direction : String := "neutral"
  trend_strength : Option ℚ := none
  price_vs_sma20 : Option ℚ := none
  price_vs_sma50 : Option ℚ := none
  price_vs_sma200 : Option ℚ := none
  price_vs_ema200 : Option ℚ := none
  support_level : Option ℚ := none
  resistance_level : Option ℚ := none
  volume_sma_20 : Option ℕ := none
  volume_ratio20 : Option ℚ := none
  overall_signal : String := "hold"
  signal_strength : Option ℚ := none
  deriving DecidableEq, Repr

/-- The trend-score-to-label table inlined at source lines 241-261. -/
def trend_label (trend_score : ℤ) : String × ℚ :=
  if 3 ≤ trend_score then ("strong_bullish", ((min 100 (trend_score.natAbs * 20) : ℕ) : ℚ))
  else if 1 ≤ trend_score then ("bullish", ((trend_score.natAbs * 15 : ℕ) : ℚ))
  else if trend_score ≤ -3 then ("strong_bearish", ((min 100 (trend_score.natAbs * 20) : ℕ) : ℚ))
  else if trend_score ≤ -1 then ("bearish", ((trend_score.natAbs * 15 : ℕ) : ℚ))
  else ("neutral", 0)

/-- The signal-score-to-label table inlined at source lines 300-315. -/
def signal_label (signal_score : ℤ) : String × ℚ :=
  if 4 ≤ signal_score then ("strong_buy", ((min 100 (signal_score.natAbs * 15) : ℕ) : ℚ))
  else if 2 ≤ signal_score then ("buy", ((signal_score.natAbs * 12 : ℕ) : ℚ))
  else if signal_score ≤ -4 then ("strong_sell", ((min 100 (signal_score.natAbs * 15) : ℕ) : ℚ))
  else if signal_score ≤ -2 then ("sell", ((signal_score.natAbs * 12 : ℕ) : ℚ))
  else ("hold", ((50 + signal_score.natAbs * 5 : ℕ) : ℚ))

/-- The cumulative `trend_score` of `Command.analyze_trend` (source lines
210-239): SMA20-vs-SMA50 ordering, SMA50-vs-SMA200 ordering, last close vs
SMA20, and the 5-bar momentum rung.  `closes[-1]` and `closes[-5]` become
`getD` reads. -/
def trend_score (closes : List ℚ) (ti : TechnicalIndicators) : ℤ :=
  (if truthy ti.sma_20 ∧ truthy ti.sma_50 then
    (if ti.sma_20.getD 0 > ti.sma_50.getD 0 then 1 else -1) else 0)
  + (if truthy ti.sma_50 ∧ truthy ti.sma_200 then
    (if ti.sma_50.getD 0 > ti.sma_200.getD 0 then 1 else -1) else 0)
  + (if truthy ti.sma_20 then
    (if closes.getD (closes.length - 1) 0 > ti.sma_20.getD 0 then 1 else -1) else 0)
  + (if 5 ≤ closes.length then
    (if (closes.getD (closes.length - 1) 0 - closes.getD (closes.length - 5) 0)
          / closes.getD (closes.length - 5) 0 * 100 > 2 then 1
     else if (closes.getD (closes.length - 1) 0 - closes.getD (closes.length - 5) 0)
          / closes.getD (closes.length - 5) 0 * 100 < -2 then -1
     else 0)
    else 0)

/-- Source `Command.analyze_trend` (lines 204-261): neutral below 20 closes,
else the trend table applied to the point score. -/
def analyze_trend (closes : List ℚ) (ti : TechnicalIndicators) : String × ℚ :=
  if closes.length < 20 then ("neutral", 0)
  else trend_label (trend_score closes ti)

/-- The cumulative `signal_score` of `Command.calculate_overall_signal`
(source lines 265-298): the RSI ladder, the MACD comparison, the trend
contribution and the price-position rung.  Every numeric gate is Python
truthiness on the record's Decimal field. -/
def signal_score (ti : TechnicalIndicators) : ℤ :=
  (if truthy ti.rsi_14 then
    (if ti.rsi_14.getD 0 < 30 then 2 else if ti.rsi_14.getD 0 < 40 then 1
     else if ti.rsi_14.getD 0 > 70 then -2 else if ti.rsi_14.getD 0 > 60 then -1 else 0)
    else 0)
  + (if truthy ti.macd_line ∧ truthy ti.macd_signal then
    (if ti.macd_line.getD 0 > ti.macd_signal.getD 0 then 1 else -1) else 0)
  + (if ti.trend_direction = "strong_bullish" then 2
    else if ti.trend_direction = "bullish" then 1
    else if ti.trend_direction = "strong_bearish" then -2
    else if ti.trend_direction = "bearish" then -1
    else 0)
  + (if truthy ti.price_vs_sma20 then
    (if ti.price_vs_sma20.getD 0 > 5 then 1
     else if ti.price_vs_sma20.getD 0 < -5 then -1 else 0)
    else 0)

/-- Source `Command.calculate_overall_signal` (lines 263-320): the signal
table applied to the accumulated score. -/
def calculate_overall_signal (ti : TechnicalIndicators) : String × ℚ :=
  signal_label (signal_score ti)

/-! ### Per-field update functions

`Command.handle` mutates the `tech_indicators` record sequentially; each of
the following functions gives one field's value after the update pass
(source lines 37-132), taking as explicit arguments the record values the
source reads at that program point and `old`, the field's value beforehand
(kept when the indicator's own guard fails). -/

/-- The close series the engine works on: the last 200 bars, chronological
(source lines 17-27). -/
def closesOf (bars : List Bar) : List ℚ := (lastN 200 bars).map Bar.close

/-- Source lines 38-39. -/
def upd_sma_20 (closes : List ℚ) (old : Option ℚ) : Option ℚ :=
  if 20 ≤ closes.length then some (listMean (lastN 20 closes)) else old

/-- Source line 40. -/
def upd_price_vs_sma20 (closes : List ℚ) (cp : ℚ) (old : Option ℚ) : Option ℚ :=
  if 20 ≤ closes.length then
    some (calculate_price_position cp (listMean (lastN 20 closes))) else old

/-- Source lines 42-43. -/
def upd_sma_50 (closes : List ℚ) (old : Option ℚ) : Option ℚ :=
  if 50 ≤ closes.length then some (listMean (lastN 50 closes)) else old

/-- Source line 44. -/
def upd_price_vs_sma50 (closes : List ℚ) (cp : ℚ) (old : Option ℚ) : Option ℚ :=
  if 50 ≤ closes.length then
    some (calculate_price_position cp (listMean (lastN 50 closes))) else old

/-- Source lines 46-47. -/
def upd_sma_200 (closes : List ℚ) (old : Option ℚ) : Option ℚ :=
  if 200 ≤ closes.length then some (listMean (lastN 200 closes)) else old

/-- Source line 48. -/
def upd_price_vs_sma200 (closes : List ℚ) (cp : ℚ) (old : Option ℚ) : Option ℚ :=
  if 200 ≤ closes.length then
    some (calculate_price_position cp (listMean (lastN 200 closes))) else old

/-- Source lines 51-52. -/
def upd_ema_12 (closes : List ℚ) (old : Option ℚ) : Option ℚ :=
  if 12 ≤ closes.length then some (calculate_ema closes 12) else old

/-- Source lines 53-54. -/
def upd_ema_26 (closes : List ℚ) (old : Option ℚ) : Option ℚ :=
  if 26 ≤ closes.length then some (calculate_ema closes 26) else old

/-- Source lines 57-65. -/
def upd_ema_200 (closes : List ℚ) (old : Option ℚ) : Option ℚ :=
  if 200 ≤ closes.length then some (calculate_ema closes 200) else old

/-- Source variable `previous_ema_200` (lines 59-63): only set when there are more
than 200 closes, which never happens after the 200-bar slice. -/
def prev_ema_200 (closes : List ℚ) : Option ℚ :=
  if 200 < closes.length then some (calculate_ema closes.dropLast 200) else none

/-- Source lines 57-85: direction is derived from the previous EMA(200) when
truthy, else from the freshly stored SMA(200) when truthy, else `"neutral"`.
`sma200` is the record's `sma_200` value at line 77. -/
def upd_ema_200_direction (closes : List ℚ) (sma200 : Option ℚ)
    (old : Option String) : Option String :=
  if 200 ≤ closes.length then
    if truthy (prev_ema_200 closes) then
      some (if calculate_ema closes 200 > (prev_ema_200 closes).getD 0 then "up"
            else if calculate_ema closes 200 < (prev_ema_200 closes).getD 0 then "down"
            else "sideways")
    else if truthy sma200 then
      some (if calculate_ema closes 200 > sma200.getD 0 then "up"
            else if calculate_ema closes 200 < sma200.getD 0 then "down"
            else "sideways")
    else some "neutral"
  else old

/-- Source lines 87-89: guarded by truthiness of the current price and the
just-stored EMA(200). -/
def upd_price_vs_ema200 (closes : List ℚ) (cp : ℚ) (ema200 : Option ℚ)
    (old : Option ℚ) : Option ℚ :=
  if 200 ≤ closes.length then
    if cp ≠ 0 ∧ truthy ema200 then
      some (((cp - ema200.getD 0) / ema200.getD 0) * 100)
    else old
  else old

/-- Source lines 92-93: the MACD line from the record's (possibly stale)
EMA fields, gated by their truthiness. -/
def upd_macd_line (e12 e26 : Option ℚ) (old : Option ℚ) : Option ℚ :=
  if truthy e12 ∧ truthy e26 then some (e12.getD 0 - e26.getD 0) else old

/-- Source lines 96-101: the freshly recomputed MACD values for each index
from `max(26, N-9)` to `N-1` (the loop body additionally guards `i >= 26`). -/
def macdValues (closes : List ℚ) : List ℚ :=
  ((List.range' (max 26 (closes.length - 9)) (closes.length - max 26 (closes.length - 9))).filter
      (fun i => decide (26 ≤ i))).map
    (fun i => calculate_ema (closes.take i) 12 - calculate_ema (closes.take i) 26)

/-- Source lines 94-104. -/
def upd_macd_signal (closes : List ℚ) (e12 e26 : Option ℚ) (old : Option ℚ) : Option ℚ :=
  if truthy e12 ∧ truthy e26 then
    if 35 ≤ closes.length then
      if macdValues closes ≠ [] then
        some (listMean (lastN 9 (macdValues closes)))
      else old
    else old
  else old

/-- Source line 105: histogram = macd_line − macd_signal with the values just
stored on the record. -/
def upd_macd_histogram (closes : List ℚ) (e12 e26 : Option ℚ) (old : Option ℚ) : Option ℚ :=
  if truthy e12 ∧ truthy e26 then
    if 35 ≤ closes.length then
      if macdValues closes ≠ [] then
        some ((e12.getD 0 - e26.getD 0) - listMean (lastN 9 (macdValues closes)))
      else old
    else old
  else old

/-- Source lines 108-109. -/
def upd_rsi_14 (closes : List ℚ) (old : Option ℚ) : Option ℚ :=
  if 15 ≤ closes.length then some (calculate_rsi closes 14) else old

/-- Source lines 112-116. -/
def upd_bb_middle (closes : List ℚ) (old : Option ℚ) : Option ℚ :=
  if 20 ≤ closes.length then some (listMean (lastN 20 closes)) else old

/-- Source line 117: middle + 2·stdev. -/
def upd_bb_upper (sq : ℚ → ℚ) (closes : List ℚ) (old : Option ℚ) : Option ℚ :=
  if 20 ≤ closes.length then
    some (listMean (lastN 20 closes) + 2 * sq (sampleVariance (lastN 20 closes)))
  else old

/-- Source line 118: middle − 2·stdev. -/
def upd_bb_lower (sq : ℚ → ℚ) (closes : List ℚ) (old : Option ℚ) : Option ℚ :=
  if 20 ≤ closes.length then
    some (listMean (lastN 20 closes) - 2 * sq (sampleVariance (lastN 20 closes)))
  else old

/-- Source line 119: width = upper − lower as just stored. -/
def upd_bb_width (sq : ℚ → ℚ) (closes : List ℚ) (old : Option ℚ) : Option ℚ :=
  if 20 ≤ closes.length then
    some ((listMean (lastN 20 closes) + 2 * sq (sampleVariance (lastN 20 closes)))
      - (listMean (lastN 20 closes) - 2 * sq (sampleVariance (lastN 20 closes))))
  else old

/-- Source lines 122-125. -/
def upd_support_level (lows highs : List ℚ) (old : Option ℚ) : Option ℚ :=
  if 20 ≤ lows.length ∧ 20 ≤ highs.length then some (listMin (lastN 20 lows)) else old

/-- Source lines 122-126. -/
def upd_resistance_level (lows highs : List ℚ) (old : Option ℚ) : Option ℚ :=
  if 20 ≤ lows.length ∧ 20 ≤ highs.length then some (listMax (lastN 20 highs)) else old

/-- Source lines 129-130: `int(statistics.mean(...))` truncates; on these
nonnegative integers that is `ℕ` division. -/
def upd_volume_sma (volumes : List ℕ) (old : Option ℕ) : Option ℕ :=
  if 20 ≤ volumes.length then some ((lastN 20 volumes).sum / 20) else old

/-- Source lines 131-132: guarded by truthiness of `stock.volume` and the
just-stored 20-day volume SMA being positive. -/
def upd_volume_ratio20 (volumes : List ℕ) (stock_volume : ℕ) (vsma : Option ℕ)
    (old : Option ℚ) : Option ℚ :=
  if 20 ≤ volumes.length ∧ stock_volume ≠ 0 ∧ 0 < vsma.getD 0 then
    some ((stock_volume : ℚ) / ((vsma.getD 0 : ℕ) : ℚ))
  else old

/-- Source lines 37-132: the indicator update pass.  Each field's expression
resolves the record reads of the sequential original to the value the record
holds at that program point (fresh where already assigned, `ti`'s old value
otherwise). -/
def update_indicators (sq : ℚ → ℚ) (bars : List Bar) (cp : ℚ) (vol : ℕ)
    (ti : TechnicalIndicators) : TechnicalIndicators :=
  let price_data := lastN 200 bars
  let closes := price_data.map Bar.close
  let volumes := price_data.map Bar.volume
  let highs := price_data.map Bar.high
  let lows := price_data.map Bar.low
  { ti with
    sma_20 := upd_sma_20 closes ti.sma_20
    price_vs_sma20 := upd_price_vs_sma20 closes cp ti.price_vs_sma20
    sma_50 := upd_sma_50 closes ti.sma_50
    price_vs_sma50 := upd_price_vs_sma50 closes cp ti.price_vs_sma50
    sma_200 := upd_sma_200 closes ti.sma_200
    price_vs_sma200 := upd_price_vs_sma200 closes cp ti.price_vs_sma200
    ema_12 := upd_ema_12 closes ti.ema_12
    ema_26 := upd_ema_26 closes ti.ema_26
    ema_200 := upd_ema_200 closes ti.ema_200
    ema_200_direction :=
      upd_ema_200_direction closes (upd_sma_200 closes ti.sma_200) ti.ema_200_direction
    price_vs_ema200 :=
      upd_price_vs_ema200 closes cp (upd_ema_200 closes ti.ema_200) ti.price_vs_ema200
    macd_line :=
      upd_macd_line (upd_ema_12 closes ti.ema_12) (upd_ema_26 closes ti.ema_26) ti.macd_line
    macd_signal :=
      upd_macd_signal closes (upd_ema_12 closes ti.ema_12) (upd_ema_26 closes ti.ema_26)
        ti.macd_signal
    macd_histogram :=
      upd_macd_histogram closes (upd_ema_12 closes ti.ema_12) (upd_ema_26 closes ti.ema_26)
        ti.macd_histogram
    rsi_14 := upd_rsi_14 closes ti.rsi_14
    bb_middle := upd_bb_middle closes ti.bb_middle
    bb_upper := upd_bb_upper sq closes ti.bb_upper
    bb_lower := upd_bb_lower sq closes ti.bb_lower
    bb_width := upd_bb_width sq closes ti.bb_width
    support_level := upd_support_level lows highs ti.support_level
    resistance_level := upd_resistance_level lows highs ti.resistance_level
    volume_sma_20 := upd_volume_sma volumes ti.volume_sma_20
    volume_ratio20 :=
      upd_volume_ratio20 volumes vol (upd_volume_sma volumes ti.volume_sma_20)
        ti.volume_ratio20 }

/-- Source lines 134-137: the trend pass runs on the record as left by the
indicator pass. -/
def after_trend (sq : ℚ → ℚ) (bars : List Bar) (cp : ℚ) (vol : ℕ)
    (ti : TechnicalIndicators) : TechnicalIndicators :=
  let t1 := update_indicators sq bars cp vol ti
  let trend := analyze_trend (closesOf bars) t1
  { t1 with trend_direction := trend.1, trend_strength := some trend.2 }

/-- Source lines 139-144: the overall-signal pass and save. -/
def run_body (sq : ℚ → ℚ) (bars : List Bar) (cp : ℚ) (vol : ℕ)
    (ti : TechnicalIndicators) : TechnicalIndicators :=
  let t2 := after_trend sq bars cp vol ti
  let sig := calculate_overall_signal t2
  { t2 with overall_signal := sig.1, signal_strength := some sig.2 }

/-- Source `Command.handle` for one stock (lines 13-144): take the last 200
bars; below 20 bars the stock is skipped outright (lines 21-23) and the
stored record is untouched; otherwise run the update, trend and signal
passes and save. -/
def handle_stock (sq : ℚ → ℚ) (bars : List Bar) (cp : ℚ) (vol : ℕ)
    (ti : TechnicalIndicators) : TechnicalIndicators :=
  if (lastN 200 bars).length < 20 then ti
  else run_body sq bars cp vol ti

/-- The volume series the engine works on. -/
def volumesOf (bars : List Bar) : List ℕ := (lastN 200 bars).map Bar.volume

/-- The high series the engine works on. -/
def highsOf (bars : List Bar) : List ℚ := (lastN 200 bars).map Bar.high

/-- The low series the engine works on. -/
def lowsOf (bars : List Bar) : List ℚ := (lastN 200 bars).map Bar.low

/-- The record with the four unconditionally rewritten fields
(`trend_direction`, `trend_strength`, `overall_signal`, `signal_strength`)
blanked; the update pass never reads them, so it is congruent in this view. -/
def scrub (a : TechnicalIndicators) : TechnicalIndicators :=
  { a with trend_direction := "neutral", trend_strength := none,
           overall_signal := "hold", signal_strength := none }

/-- Stated from the specification: the MACD signal line is the mean of the
last 9 MACD values obtained by recomputing EMA(12) and EMA(26) on the closes
up to each index from `max(26, N-9)` to `N-1`. -/
def macd_signal_spec (closes : List ℚ) : ℚ :=
  listMean (lastN 9 ((List.range' (max 26 (closes.length - 9))
      (closes.length - max 26 (closes.length - 9))).map
    (fun i => calculate_ema (closes.take i) 12 - calculate_ema (closes.take i) 26)))

/-- Stated from the claim: the overall-signal score as the sum of the first
matching RSI rung whenever RSI has been computed, the MACD comparison
whenever both line and signal are present, the trend contribution, and the
price-position rung. -/
def claimed_overall_score (ti : TechnicalIndicators) : ℤ :=
  (match ti.rsi_14 with
    | none => 0
    | some rsi =>
      if rsi < 30 then 2 else if rsi < 40 then 1
      else if rsi > 70 then -2 else if rsi > 60 then -1 else 0)
  + (match ti.macd_line, ti.macd_signal with
    | some l, some s => if l > s then 1 else -1
    | _, _ => 0)
  + (if ti.trend_direction = "strong_bullish" then 2
    else if ti.trend_direction = "bullish" then 1
    else if ti.trend_direction = "strong_bearish" then -2
    else if ti.trend_direction = "bearish" then -1
    else 0)
  + (match ti.price_vs_sma20 with
    | none => 0
    | some pp => if pp > 5 then 1 else if pp < -5 then -1 else 0)

/-- The amended score: as `claimed_overall_score`, but the RSI rung counts
only when the stored RSI is also nonzero, the MACD comparison only when both
stored values are nonzero, and the price-position rung only when the stored
percentage is nonzero (Python truthiness of the Decimal fields). -/
def amended_overall_score (ti : TechnicalIndicators) : ℤ :=
  (match ti.rsi_14 with
    | none => 0
    | some rsi =>
      if rsi = 0 then 0
      else if rsi < 30 then 2 else if rsi < 40 then 1
      else if rsi > 70 then -2 else if rsi > 60 then -1 else 0)
  + (match ti.macd_line, ti.macd_signal with
    | some l, some s => if l = 0 ∨ s = 0 then 0 else if l > s then 1 else -1
    | _, _ => 0)
  + (if ti.trend_direction = "strong_bullish" then 2
    else if ti.trend_direction = "bullish" then 1
    else if ti.trend_direction = "strong_bearish" then -2
    else if ti.trend_direction = "bearish" then -1
    else 0)
  + (match ti.price_vs_sma20 with
    | none => 0
    | some pp =>
      if pp = 0 then 0
      else if pp > 5 then 1 else if pp < -5 then -1 else 0)

/-! ### List, mean and variance lemmas -/

theorem lastN_length_of_le {α : Type} {n : ℕ} {l : List α} (h : n ≤ l.length) :
    (lastN n l).length = n := by
  simp only [lastN, List.length_drop]
  omega

theorem lastN_of_length_le {α : Type} {n : ℕ} {l : List α} (h : l.length ≤ n) :
    lastN n l = l := by
  unfold lastN
  rw [Nat.sub_eq_zero_of_le h, List.drop_zero]

theorem lastN_length_le {α : Type} (n : ℕ) (l : List α) : (lastN n l).length ≤ n := by
  simp only [lastN, List.length_drop]
  omega

theorem mem_lastN {α : Type} {n : ℕ} {l : List α} {x : α} (h : x ∈ lastN n l) : x ∈ l :=
  List.mem_of_mem_drop h

theorem lastN_ne_nil {α : Type} {n : ℕ} {l : List α} (hn : 1 ≤ n) (hl : 1 ≤ l.length) :
    lastN n l ≠ [] := by
  intro hc
  have := congrArg List.length hc
  simp only [lastN, List.length_drop, List.length_nil] at this
  omega

theorem listMean_const {c : ℚ} {l : List ℚ} (h : ∀ x ∈ l, x = c) (hne : l ≠ []) :
    listMean l = c := by
  have hlen : (l.length : ℚ) ≠ 0 := by
    have : l.length ≠ 0 := fun hc => hne (List.length_eq_zero.mp hc)
    exact_mod_cast this
  unfold listMean
  rw [List.sum_eq_card_nsmul l c h, nsmul_eq_mul, mul_comm, mul_div_assoc, div_self hlen,
    mul_one]

theorem listMean_zero {l : List ℚ} (h : ∀ x ∈ l, x = 0) : listMean l = 0 := by
  rcases eq_or_ne l [] with rfl | hne
  · simp [listMean]
  · exact listMean_const h hne

theorem listMean_nonneg {l : List ℚ} (h : ∀ x ∈ l, 0 ≤ x) : 0 ≤ listMean l :=
  div_nonneg (List.sum_nonneg h) (by positivity)

theorem listMean_pos {l : List ℚ} (h : ∀ x ∈ l, 0 < x) (hne : l ≠ []) : 0 < listMean l := by
  have hlen : (0 : ℚ) < l.length := by
    have := List.length_pos.mpr hne
    exact_mod_cast this
  exact div_pos (List.sum_pos l h hne) hlen

theorem sampleVariance_of_const {c : ℚ} {l : List ℚ} (h : ∀ x ∈ l, x = c) :
    sampleVariance l = 0 := by
  rcases eq_or_ne l [] with rfl | hne
  · simp [sampleVariance]
  · unfold sampleVariance
    rw [List.sum_eq_zero, zero_div]
    intro y hy
    obtain ⟨x, hx, rfl⟩ := List.mem_map.mp hy
    rw [h x hx, listMean_const h hne]
    ring

/-! ### EMA lemmas -/

theorem ema_foldl_const (k c : ℚ) :
    ∀ (l : List ℚ), (∀ x ∈ l, x = c) →
      l.foldl (fun ema price => price * k + ema * (1 - k)) c = c := by
  intro l
  induction l with
  | nil => intro _; rfl
  | cons a t ih =>
    intro h
    have ha : a = c := h a (List.mem_cons_self a t)
    have h' : ∀ x ∈ t, x = c := fun x hx => h x (List.mem_cons_of_mem a hx)
    simp only [List.foldl_cons, ha]
    have hstep : c * k + c * (1 - k) = c := by ring
    rw [hstep]
    exact ih h'

theorem calculate_ema_const {c : ℚ} {prices : List ℚ} {period : ℕ}
    (h : ∀ x ∈ prices, x = c) (hp : 1 ≤ period) (hlen : period ≤ prices.length) :
    calculate_ema prices period = c := by
  unfold calculate_ema
  rw [if_neg (by omega)]
  have hseed : listMean (prices.take period) = c := by
    refine listMean_const (fun x hx => h x (List.mem_of_mem_take hx)) ?_
    intro hc
    have := congrArg List.length hc
    simp only [List.length_take, List.length_nil] at this
    omega
  rw [hseed]
  exact ema_foldl_const _ _ _ (fun x hx => h x (List.mem_of_mem_drop hx))

theorem ema_foldl_pos {k : ℚ} (hk0 : 0 < k) (hk1 : k ≤ 1) :
    ∀ (l : List ℚ), (∀ x ∈ l, 0 < x) → ∀ {e : ℚ}, 0 < e →
      0 < l.foldl (fun ema price => price * k + ema * (1 - k)) e := by
  intro l
  induction l with
  | nil => intro _ e he; exact he
  | cons a t ih =>
    intro h e he
    have ha : 0 < a := h a (List.mem_cons_self a t)
    have h' : ∀ x ∈ t, 0 < x := fun x hx => h x (List.mem_cons_of_mem a hx)
    simp only [List.foldl_cons]
    refine ih h' ?_
    have h1 : 0 < a * k := mul_pos ha hk0
    have h2 : 0 ≤ e * (1 - k) := mul_nonneg he.le (by linarith)
    linarith

theorem calculate_ema_pos {prices : List ℚ} {period : ℕ}
    (h : ∀ x ∈ prices, 0 < x) (hp : 1 ≤ period) (hlen : period ≤ prices.length) :
    0 < calculate_ema prices period := by
  unfold calculate_ema
  rw [if_neg (by omega)]
  have hppos : (0 : ℚ) < (period : ℚ) + 1 := by positivity
  have hk0 : 0 < 2 / ((period : ℚ) + 1) := by positivity
  have hk1 : 2 / ((period : ℚ) + 1) ≤ 1 := by
    rw [div_le_one hppos]
    have : (1 : ℚ) ≤ (period : ℚ) := by exact_mod_cast hp
    linarith
  refine ema_foldl_pos hk0 hk1 _ (fun x hx => h x (List.mem_of_mem_drop hx)) ?_
  refine listMean_pos (fun x hx => h x (List.mem_of_mem_take hx)) ?_
  intro hc
  have := congrArg List.length hc
  simp only [List.length_take, List.length_nil] at this
  omega

/-! ### RSI lemmas -/

theorem rsi_changes_const {c : ℚ} {prices : List ℚ} (h : ∀ x ∈ prices, x = c) :
    ∀ x ∈ rsi_changes prices, x = 0 := by
  intro x hx
  obtain ⟨⟨a, b⟩, hab, rfl⟩ := List.mem_map.mp hx
  obtain ⟨ha, hb⟩ := List.of_mem_zip hab
  rw [h a (List.mem_of_mem_drop ha), h b hb]
  ring

theorem rsi_changes_pos_of_chain {prices : List ℚ} (h : prices.Chain' (· < ·)) :
    ∀ x ∈ rsi_changes prices, 0 < x := by
  unfold rsi_changes
  induction prices with
  | nil => intro x hx; simp at hx
  | cons a t ih =>
    cases t with
    | nil => intro x hx; simp at hx
    | cons b u =>
      intro x hx
      simp only [List.drop_one, List.tail_cons, List.zip_cons_cons, List.map_cons,
        List.mem_cons] at hx
      rcases hx with hx | hx
      · have hab : a < b := (List.chain'_cons.mp h).1
        rw [hx]; simpa using hab
      · have ht : (b :: u).Chain' (· < ·) := (List.chain'_cons.mp h).2
        have := ih ht
        simp only [List.drop_one, List.tail_cons] at this
        exact this x hx

theorem rsi_losses_zero_of_pos {prices : List ℚ}
    (h : ∀ x ∈ rsi_changes prices, 0 < x) :
    ∀ x ∈ rsi_losses prices, x = 0 := by
  intro x hx
  obtain ⟨cc, hc, rfl⟩ := List.mem_map.mp hx
  rw [if_pos (h cc hc)]

theorem rsi_losses_zero_of_zero {prices : List ℚ}
    (h : ∀ x ∈ rsi_changes prices, x = 0) :
    ∀ x ∈ rsi_losses prices, x = 0 := by
  intro x hx
  obtain ⟨cc, hc, rfl⟩ := List.mem_map.mp hx
  rw [h cc hc]
  norm_num

/-- The average-loss-zero fallback: whenever every loss entry is zero and at
least `period + 1` prices exist, the RSI is exactly 100. -/
theorem calculate_rsi_eq_100 {prices : List ℚ} {period : ℕ}
    (hlen : period + 1 ≤ prices.length)
    (h : ∀ x ∈ rsi_losses prices, x = 0) :
    calculate_rsi prices period = 100 := by
  unfold calculate_rsi
  rw [if_neg (by omega)]
  have hglen : ¬ (rsi_gains prices).length < period := by
    simp only [rsi_gains, rsi_changes, List.length_map, List.length_zip, List.length_drop]
    omega
  rw [if_neg hglen, if_pos]
  exact listMean_zero (fun x hx => h x (mem_lastN hx))

theorem calculate_rsi_flat {c : ℚ} {prices : List ℚ} {period : ℕ}
    (hlen : period + 1 ≤ prices.length) (h : ∀ x ∈ prices, x = c) :
    calculate_rsi prices period = 100 :=
  calculate_rsi_eq_100 hlen (rsi_losses_zero_of_zero (rsi_changes_const h))

theorem calculate_rsi_bounds (prices : List ℚ) (period : ℕ) :
    0 ≤ calculate_rsi prices period ∧ calculate_rsi prices period ≤ 100 := by
  unfold calculate_rsi
  split
  · norm_num
  split
  · norm_num
  split
  · norm_num
  rename_i hloss
  have hlossnn : 0 ≤ listMean (lastN period (rsi_losses prices)) := by
    refine listMean_nonneg (fun x hx => ?_)
    obtain ⟨cc, _, rfl⟩ := List.mem_map.mp (mem_lastN hx)
    split
    · norm_num
    · exact abs_nonneg cc
  have hlosspos : 0 < listMean (lastN period (rsi_losses prices)) :=
    lt_of_le_of_ne hlossnn (Ne.symm hloss)
  have hgainnn : 0 ≤ listMean (lastN period (rsi_gains prices)) := by
    refine listMean_nonneg (fun x hx => ?_)
    obtain ⟨cc, _, rfl⟩ := List.mem_map.mp (mem_lastN hx)
    split
    · rename_i hc; exact le_of_lt hc
    · norm_num
  set rs := listMean (lastN period (rsi_gains prices)) /
    listMean (lastN period (rsi_losses prices)) with hrs
  have hrsnn : 0 ≤ rs := div_nonneg hgainnn hlossnn
  have h1 : (0 : ℚ) < 1 + rs := by linarith
  have h2 : 100 / (1 + rs) ≤ 100 := by
    rw [div_le_iff₀ h1]
    nlinarith
  have h3 : 0 < 100 / (1 + rs) := by positivity
  constructor <;> linarith

/-! ### MACD value-list lemmas -/

theorem macdValues_eq_of_35 {closes : List ℚ} (h : 35 ≤ closes.length) :
    macdValues closes = (List.range' (closes.length - 9) 9).map
      (fun i => calculate_ema (closes.take i) 12 - calculate_ema (closes.take i) 26) := by
  unfold macdValues
  have hmax : max 26 (closes.length - 9) = closes.length - 9 := Nat.max_eq_right (by omega)
  rw [hmax]
  have hcount : closes.length - (closes.length - 9) = 9 := by omega
  rw [hcount]
  congr 1
  refine List.filter_eq_self.mpr (fun i hi => ?_)
  have := (List.mem_range'_1.mp hi).1
  simp only [decide_eq_true_eq]
  omega

theorem macdValues_length_of_35 {closes : List ℚ} (h : 35 ≤ closes.length) :
    (macdValues closes).length = 9 := by
  rw [macdValues_eq_of_35 h, List.length_map, List.length_range']

theorem macdValues_ne_nil_of_35 {closes : List ℚ} (h : 35 ≤ closes.length) :
    macdValues closes ≠ [] := by
  intro hc
  have := congrArg List.length hc
  rw [macdValues_length_of_35 h] at this
  simp at this

theorem lastN_macdValues_of_35 {closes : List ℚ} (h : 35 ≤ closes.length) :
    lastN 9 (macdValues closes) = macdValues closes :=
  lastN_of_length_le (le_of_eq (macdValues_length_of_35 h))

/-! ### Stability of the per-field updates (applying the same update pass
twice is a no-op, field by field) -/

theorem upd_sma_20_stable (closes : List ℚ) (old : Option ℚ) :
    upd_sma_20 closes (upd_sma_20 closes old) = upd_sma_20 closes old := by
  by_cases h : 20 ≤ closes.length <;> simp [upd_sma_20, h]

theorem upd_price_vs_sma20_stable (closes : List ℚ) (cp : ℚ) (old : Option ℚ) :
    upd_price_vs_sma20 closes cp (upd_price_vs_sma20 closes cp old)
      = upd_price_vs_sma20 closes cp old := by
  by_cases h : 20 ≤ closes.length <;> simp [upd_price_vs_sma20, h]

theorem upd_sma_50_stable (closes : List ℚ) (old : Option ℚ) :
    upd_sma_50 closes (upd_sma_50 closes old) = upd_sma_50 closes old := by
  by_cases h : 50 ≤ closes.length <;> simp [upd_sma_50, h]

theorem upd_price_vs_sma50_stable (closes : List ℚ) (cp : ℚ) (old : Option ℚ) :
    upd_price_vs_sma50 closes cp (upd_price_vs_sma50 closes cp old)
      = upd_price_vs_sma50 closes cp old := by
  by_cases h : 50 ≤ closes.length <;> simp [upd_price_vs_sma50, h]

theorem upd_sma_200_stable (closes : List ℚ) (old : Option ℚ) :
    upd_sma_200 closes (upd_sma_200 closes old) = upd_sma_200 closes old := by
  by_cases h : 200 ≤ closes.length <;> simp [upd_sma_200, h]

theorem upd_price_vs_sma200_stable (closes : List ℚ) (cp : ℚ) (old : Option ℚ) :
    upd_price_vs_sma200 closes cp (upd_price_vs_sma200 closes cp old)
      = upd_price_vs_sma200 closes cp old := by
  by_cases h : 200 ≤ closes.length <;> simp [upd_price_vs_sma200, h]

theorem upd_ema_12_stable (closes : List ℚ) (old : Option ℚ) :
    upd_ema_12 closes (upd_ema_12 closes old) = upd_ema_12 closes old := by
  by_cases h : 12 ≤ closes.length <;> simp [upd_ema_12, h]

theorem upd_ema_26_stable (closes : List ℚ) (old : Option ℚ) :
    upd_ema_26 closes (upd_ema_26 closes old) = upd_ema_26 closes old := by
  by_cases h : 26 ≤ closes.length <;> simp [upd_ema_26, h]

theorem upd_ema_200_stable (closes : List ℚ) (old : Option ℚ) :
    upd_ema_200 closes (upd_ema_200 closes old) = upd_ema_200 closes old := by
  by_cases h : 200 ≤ closes.length <;> simp [upd_ema_200, h]

theorem upd_ema_200_direction_stable (closes : List ℚ) (sma200 : Option ℚ)
    (old : Option String) :
    upd_ema_200_direction closes sma200 (upd_ema_200_direction closes sma200 old)
      = upd_ema_200_direction closes sma200 old := by
  by_cases h : 200 ≤ closes.length <;> simp [upd_ema_200_direction, h]

theorem upd_price_vs_ema200_stable (closes : List ℚ) (cp : ℚ) (ema200 : Option ℚ)
    (old : Option ℚ) :
    upd_price_vs_ema200 closes cp ema200 (upd_price_vs_ema200 closes cp ema200 old)
      = upd_price_vs_ema200 closes cp ema200 old := by
  by_cases h1 : 200 ≤ closes.length <;> by_cases h2 : cp ≠ 0 ∧ truthy ema200 <;>
    simp [upd_price_vs_ema200, h1, h2]

theorem upd_macd_line_stable (e12 e26 old : Option ℚ) :
    upd_macd_line e12 e26 (upd_macd_line e12 e26 old) = upd_macd_line e12 e26 old := by
  by_cases h : truthy e12 ∧ truthy e26 <;> simp [upd_macd_line, h]

theorem upd_macd_signal_stable (closes : List ℚ) (e12 e26 old : Option ℚ) :
    upd_macd_signal closes e12 e26 (upd_macd_signal closes e12 e26 old)
      = upd_macd_signal closes e12 e26 old := by
  by_cases h1 : truthy e12 ∧ truthy e26 <;> by_cases h2 : 35 ≤ closes.length <;>
    by_cases h3 : macdValues closes ≠ [] <;> simp [upd_macd_signal, h1, h2, h3]

theorem upd_macd_histogram_stable (closes : List ℚ) (e12 e26 old : Option ℚ) :
    upd_macd_histogram closes e12 e26 (upd_macd_histogram closes e12 e26 old)
      = upd_macd_histogram closes e12 e26 old := by
  by_cases h1 : truthy e12 ∧ truthy e26 <;> by_cases h2 : 35 ≤ closes.length <;>
    by_cases h3 : macdValues closes ≠ [] <;> simp [upd_macd_histogram, h1, h2, h3]

theorem upd_rsi_14_stable (closes : List ℚ) (old : Option ℚ) :
    upd_rsi_14 closes (upd_rsi_14 closes old) = upd_rsi_14 closes old := by
  by_cases h : 15 ≤ closes.length <;> simp [upd_rsi_14, h]

theorem upd_bb_middle_stable (closes : List ℚ) (old : Option ℚ) :
    upd_bb_middle closes (upd_bb_middle closes old) = upd_bb_middle closes old := by
  by_cases h : 20 ≤ closes.length <;> simp [upd_bb_middle, h]

theorem upd_bb_upper_stable (sq : ℚ → ℚ) (closes : List ℚ) (old : Option ℚ) :
    upd_bb_upper sq closes (upd_bb_upper sq closes old) = upd_bb_upper sq closes old := by
  by_cases h : 20 ≤ closes.length <;> simp [upd_bb_upper, h]

theorem upd_bb_lower_stable (sq : ℚ → ℚ) (closes : List ℚ) (old : Option ℚ) :
    upd_bb_lower sq closes (upd_bb_lower sq closes old) = upd_bb_lower sq closes old := by
  by_cases h : 20 ≤ closes.length <;> simp [upd_bb_lower, h]

theorem upd_bb_width_stable (sq : ℚ → ℚ) (closes : List ℚ) (old : Option ℚ) :
    upd_bb_width sq closes (upd_bb_width sq closes old) = upd_bb_width sq closes old := by
  by_cases h : 20 ≤ closes.length <;> simp [upd_bb_width, h]

theorem upd_support_level_stable (lows highs : List ℚ) (old : Option ℚ) :
    upd_support_level lows highs (upd_support_level lows highs old)
      = upd_support_level lows highs old := by
  by_cases h : 20 ≤ lows.length ∧ 20 ≤ highs.length <;> simp [upd_support_level, h]

theorem upd_resistance_level_stable (lows highs : List ℚ) (old : Option ℚ) :
    upd_resistance_level lows highs (upd_resistance_level lows highs old)
      = upd_resistance_level lows highs old := by
  by_cases h : 20 ≤ lows.length ∧ 20 ≤ highs.length <;> simp [upd_resistance_level, h]

theorem upd_volume_sma_stable (volumes : List ℕ) (old : Option ℕ) :
    upd_volume_sma volumes (upd_volume_sma volumes old) = upd_volume_sma volumes old := by
  by_cases h : 20 ≤ volumes.length <;> simp [upd_volume_sma, h]

theorem upd_volume_ratio20_stable (volumes : List ℕ) (sv : ℕ) (vsma : Option ℕ)
    (old : Option ℚ) :
    upd_volume_ratio20 volumes sv vsma (upd_volume_ratio20 volumes sv vsma old)
      = upd_volume_ratio20 volumes sv vsma old := by
  by_cases h : 20 ≤ volumes.length ∧ sv ≠ 0 ∧ 0 < vsma.getD 0 <;>
    simp [upd_volume_ratio20, h]

/-- Composite stability for the MACD line through the EMA fields it reads. -/
theorem macd_line_stable2 (closes : List ℚ) (x y z : Option ℚ) :
    upd_macd_line (upd_ema_12 closes (upd_ema_12 closes x))
        (upd_ema_26 closes (upd_ema_26 closes y))
        (upd_macd_line (upd_ema_12 closes x) (upd_ema_26 closes y) z)
      = upd_macd_line (upd_ema_12 closes x) (upd_ema_26 closes y) z := by
  rw [upd_ema_12_stable, upd_ema_26_stable, upd_macd_line_stable]

/-- Composite stability for the MACD signal. -/
theorem macd_signal_stable2 (closes : List ℚ) (x y z : Option ℚ) :
    upd_macd_signal closes (upd_ema_12 closes (upd_ema_12 closes x))
        (upd_ema_26 closes (upd_ema_26 closes y))
        (upd_macd_signal closes (upd_ema_12 closes x) (upd_ema_26 closes y) z)
      = upd_macd_signal closes (upd_ema_12 closes x) (upd_ema_26 closes y) z := by
  rw [upd_ema_12_stable, upd_ema_26_stable, upd_macd_signal_stable]

/-- Composite stability for the MACD histogram. -/
theorem macd_histogram_stable2 (closes : List ℚ) (x y z : Option ℚ) :
    upd_macd_histogram closes (upd_ema_12 closes (upd_ema_12 closes x))
        (upd_ema_26 closes (upd_ema_26 closes y))
        (upd_macd_histogram closes (upd_ema_12 closes x) (upd_ema_26 closes y) z)
      = upd_macd_histogram closes (upd_ema_12 closes x) (upd_ema_26 closes y) z := by
  rw [upd_ema_12_stable, upd_ema_26_stable, upd_macd_histogram_stable]

/-- Composite stability for the EMA(200) direction through the SMA(200) it
reads. -/
theorem ema_200_direction_stable2 (closes : List ℚ) (s : Option ℚ) (d : Option String) :
    upd_ema_200_direction closes (upd_sma_200 closes (upd_sma_200 closes s))
        (upd_ema_200_direction closes (upd_sma_200 closes s) d)
      = upd_ema_200_direction closes (upd_sma_200 closes s) d := by
  rw [upd_sma_200_stable, upd_ema_200_direction_stable]

/-- Composite stability for the price-vs-EMA(200) field. -/
theorem price_vs_ema200_stable2 (closes : List ℚ) (cp : ℚ) (e : Option ℚ) (o : Option ℚ) :
    upd_price_vs_ema200 closes cp (upd_ema_200 closes (upd_ema_200 closes e))
        (upd_price_vs_ema200 closes cp (upd_ema_200 closes e) o)
      = upd_price_vs_ema200 closes cp (upd_ema_200 closes e) o := by
  rw [upd_ema_200_stable, upd_price_vs_ema200_stable]

/-- Composite stability for the volume ratio through the volume SMA it reads. -/
theorem volume_ratio20_stable2 (volumes : List ℕ) (sv : ℕ) (v : Option ℕ) (o : Option ℚ) :
    upd_volume_ratio20 volumes sv (upd_volume_sma volumes (upd_volume_sma volumes v))
        (upd_volume_ratio20 volumes sv (upd_volume_sma volumes v) o)
      = upd_volume_ratio20 volumes sv (upd_volume_sma volumes v) o := by
  rw [upd_volume_sma_stable, upd_volume_ratio20_stable]

/-! ### Field-wise views of the update, trend and signal passes.  Every
lemma is definitional: it reads one field of the record each pass builds. -/

theorem ui_sma_20 (sq : ℚ → ℚ) (bars : List Bar) (cp : ℚ) (vol : ℕ) (ti : TechnicalIndicators) :
    (update_indicators sq bars cp vol ti).sma_20 = upd_sma_20 (closesOf bars) ti.sma_20 := rfl

theorem ui_sma_50 (sq : ℚ → ℚ) (bars : List Bar) (cp : ℚ) (vol : ℕ) (ti : TechnicalIndicators) :
    (update_indicators sq bars cp vol ti).sma_50 = upd_sma_50 (closesOf bars) ti.sma_50 := rfl

theorem ui_sma_200 (sq : ℚ → ℚ) (bars : List Bar) (cp : ℚ) (vol : ℕ) (ti : TechnicalIndicators) :
    (update_indicators sq bars cp vol ti).sma_200 = upd_sma_200 (closesOf bars) ti.sma_200 := rfl

theorem ui_ema_12 (sq : ℚ → ℚ) (bars : List Bar) (cp : ℚ) (vol : ℕ) (ti : TechnicalIndicators) :
    (update_indicators sq bars cp vol ti).ema_12 = upd_ema_12 (closesOf bars) ti.ema_12 := rfl

theorem ui_ema_26 (sq : ℚ → ℚ) (bars : List Bar) (cp : ℚ) (vol : ℕ) (ti : TechnicalIndicators) :
    (update_indicators sq bars cp vol ti).ema_26 = upd_ema_26 (closesOf bars) ti.ema_26 := rfl

theorem ui_ema_200 (sq : ℚ → ℚ) (bars : List Bar) (cp : ℚ) (vol : ℕ) (ti : TechnicalIndicators) :
    (update_indicators sq bars cp vol ti).ema_200 = upd_ema_200 (closesOf bars) ti.ema_200 := rfl

theorem ui_ema_200_direction (sq : ℚ → ℚ) (bars : List Bar) (cp : ℚ) (vol : ℕ) (ti : TechnicalIndicators) :
    (update_indicators sq bars cp vol ti).ema_200_direction = upd_ema_200_direction (closesOf bars) (upd_sma_200 (closesOf bars) ti.sma_200) ti.ema_200_direction := rfl

theorem ui_macd_line (sq : ℚ → ℚ) (bars : List Bar) (cp : ℚ) (vol : ℕ) (ti : TechnicalIndicators) :
    (update_indicators sq bars cp vol ti).macd_line = upd_macd_line (upd_ema_12 (closesOf bars) ti.ema_12) (upd_ema_26 (closesOf bars) ti.ema_26) ti.macd_line := rfl

theorem ui_macd_signal (sq : ℚ → ℚ) (bars : List Bar) (cp : ℚ) (vol : ℕ) (ti : TechnicalIndicators) :
    (update_indicators sq bars cp vol ti).macd_signal = upd_macd_signal (closesOf bars) (upd_ema_12 (closesOf bars) ti.ema_12) (upd_ema_26 (closesOf bars) ti.ema_26) ti.macd_signal := rfl

theorem ui_macd_histogram (sq : ℚ → ℚ) (bars : List Bar) (cp : ℚ) (vol : ℕ) (ti : TechnicalIndicators) :
    (update_indicators sq bars cp vol ti).macd_histogram = upd_macd_histogram (closesOf bars) (upd_ema_12 (closesOf bars) ti.ema_12) (upd_ema_26 (closesOf bars) ti.ema_26) ti.macd_histogram := rfl

theorem ui_rsi_14 (sq : ℚ → ℚ) (bars : List Bar) (cp : ℚ) (vol : ℕ) (ti : TechnicalIndicators) :
    (update_indicators sq bars cp vol ti).rsi_14 = upd_rsi_14 (closesOf bars) ti.rsi_14 := rfl

theorem ui_bb_upper (sq : ℚ → ℚ) (bars : List Bar) (cp : ℚ) (vol : ℕ) (ti : TechnicalIndicators) :
    (update_indicators sq bars cp vol ti).bb_upper = upd_bb_upper sq (closesOf bars) ti.bb_upper := rfl

theorem ui_bb_middle (sq : ℚ → ℚ) (bars : List Bar) (cp : ℚ) (vol : ℕ) (ti : TechnicalIndicators) :
    (update_indicators sq bars cp vol ti).bb_middle = upd_bb_middle (closesOf bars) ti.bb_middle := rfl

theorem ui_bb_lower (sq : ℚ → ℚ) (bars : List Bar) (cp : ℚ) (vol : ℕ) (ti : TechnicalIndicators) :
    (update_indicators sq bars cp vol ti).bb_lower = upd_bb_lower sq (closesOf bars) ti.bb_lower := rfl

theorem ui_bb_width (sq : ℚ → ℚ) (bars : List Bar) (cp : ℚ) (vol : ℕ) (ti : TechnicalIndicators) :
    (update_indicators sq bars cp vol ti).bb_width = upd_bb_width sq (closesOf bars) ti.bb_width := rfl

theorem ui_trend_direction (sq : ℚ → ℚ) (bars : List Bar) (cp : ℚ) (vol : ℕ) (ti : TechnicalIndicators) :
    (update_indicators sq bars cp vol ti).trend_direction = ti.trend_direction := rfl

theorem ui_trend_strength (sq : ℚ → ℚ) (bars : List Bar) (cp : ℚ) (vol : ℕ) (ti : TechnicalIndicators) :
    (update_indicators sq bars cp vol ti).trend_strength = ti.trend_strength := rfl

theorem ui_price_vs_sma20 (sq : ℚ → ℚ) (bars : List Bar) (cp : ℚ) (vol : ℕ) (ti : TechnicalIndicators) :
    (update_indicators sq bars cp vol ti).price_vs_sma20 = upd_price_vs_sma20 (closesOf bars) cp ti.price_vs_sma20 := rfl

theorem ui_price_vs_sma50 (sq : ℚ → ℚ) (bars : List Bar) (cp : ℚ) (vol : ℕ) (ti : TechnicalIndicators) :
    (update_indicators sq bars cp vol ti).price_vs_sma50 = upd_price_vs_sma50 (closesOf bars) cp ti.price_vs_sma50 := rfl

theorem ui_price_vs_sma200 (sq : ℚ → ℚ) (bars : List Bar) (cp : ℚ) (vol : ℕ) (ti : TechnicalIndicators) :
    (update_indicators sq bars cp vol ti).price_vs_sma200 = upd_price_vs_sma200 (closesOf bars) cp ti.price_vs_sma200 := rfl

theorem ui_price_vs_ema200 (sq : ℚ → ℚ) (bars : List Bar) (cp : ℚ) (vol : ℕ) (ti : TechnicalIndicators) :
    (update_indicators sq bars cp vol ti).price_vs_ema200 = upd_price_vs_ema200 (closesOf bars) cp (upd_ema_200 (closesOf bars) ti.ema_200) ti.price_vs_ema200 := rfl

theorem ui_support_level (sq : ℚ → ℚ) (bars : List Bar) (cp : ℚ) (vol : ℕ) (ti : TechnicalIndicators) :
    (update_indicators sq bars cp vol ti).support_level = upd_support_level (lowsOf bars) (highsOf bars) ti.support_level := rfl

theorem ui_resistance_level (sq : ℚ → ℚ) (bars : List Bar) (cp : ℚ) (vol : ℕ) (ti : TechnicalIndicators) :
    (update_indicators sq bars cp vol ti).resistance_level = upd_resistance_level (lowsOf bars) (highsOf bars) ti.resistance_level := rfl

theorem ui_volume_sma_20 (sq : ℚ → ℚ) (bars : List Bar) (cp : ℚ) (vol : ℕ) (ti : TechnicalIndicators) :
    (update_indicators sq bars cp vol ti).volume_sma_20 = upd_volume_sma (volumesOf bars) ti.volume_sma_20 := rfl

theorem ui_volume_ratio20 (sq : ℚ → ℚ) (bars : List Bar) (cp : ℚ) (vol : ℕ) (ti : TechnicalIndicators) :
    (update_indicators sq bars cp vol ti).volume_ratio20 = upd_volume_ratio20 (volumesOf bars) vol (upd_volume_sma (volumesOf bars) ti.volume_sma_20) ti.volume_ratio20 := rfl

theorem ui_overall_signal (sq : ℚ → ℚ) (bars : List Bar) (cp : ℚ) (vol : ℕ) (ti : TechnicalIndicators) :
    (update_indicators sq bars cp vol ti).overall_signal = ti.overall_signal := rfl

theorem ui_signal_strength (sq : ℚ → ℚ) (bars : List Bar) (cp : ℚ) (vol : ℕ) (ti : TechnicalIndicators) :
    (update_indicators sq bars cp vol ti).signal_strength = ti.signal_strength := rfl

theorem scrub_sma_20 (a : TechnicalIndicators) : (scrub a).sma_20 = a.sma_20 := rfl

theorem scrub_sma_50 (a : TechnicalIndicators) : (scrub a).sma_50 = a.sma_50 := rfl

theorem scrub_sma_200 (a : TechnicalIndicators) : (scrub a).sma_200 = a.sma_200 := rfl

theorem scrub_ema_12 (a : TechnicalIndicators) : (scrub a).ema_12 = a.ema_12 := rfl

theorem scrub_ema_26 (a : TechnicalIndicators) : (scrub a).ema_26 = a.ema_26 := rfl

theorem scrub_ema_200 (a : TechnicalIndicators) : (scrub a).ema_200 = a.ema_200 := rfl

theorem scrub_ema_200_direction (a : TechnicalIndicators) : (scrub a).ema_200_direction = a.ema_200_direction := rfl

theorem scrub_macd_line (a : TechnicalIndicators) : (scrub a).macd_line = a.macd_line := rfl

theorem scrub_macd_signal (a : TechnicalIndicators) : (scrub a).macd_signal = a.macd_signal := rfl

theorem scrub_macd_histogram (a : TechnicalIndicators) : (scrub a).macd_histogram = a.macd_histogram := rfl

theorem scrub_rsi_14 (a : TechnicalIndicators) : (scrub a).rsi_14 = a.rsi_14 := rfl

theorem scrub_bb_upper (a : TechnicalIndicators) : (scrub a).bb_upper = a.bb_upper := rfl

theorem scrub_bb_middle (a : TechnicalIndicators) : (scrub a).bb_middle = a.bb_middle := rfl

theorem scrub_bb_lower (a : TechnicalIndicators) : (scrub a).bb_lower = a.bb_lower := rfl

theorem scrub_bb_width (a : TechnicalIndicators) : (scrub a).bb_width = a.bb_width := rfl

theorem scrub_trend_direction (a : TechnicalIndicators) : (scrub a).trend_direction = "neutral" := rfl

theorem scrub_trend_strength (a : TechnicalIndicators) : (scrub a).trend_strength = none := rfl

theorem scrub_price_vs_sma20 (a : TechnicalIndicators) : (scrub a).price_vs_sma20 = a.price_vs_sma20 := rfl

theorem scrub_price_vs_sma50 (a : TechnicalIndicators) : (scrub a).price_vs_sma50 = a.price_vs_sma50 := rfl

theorem scrub_price_vs_sma200 (a : TechnicalIndicators) : (scrub a).price_vs_sma200 = a.price_vs_sma200 := rfl

theorem scrub_price_vs_ema200 (a : TechnicalIndicators) : (scrub a).price_vs_ema200 = a.price_vs_ema200 := rfl

theorem scrub_support_level (a : TechnicalIndicators) : (scrub a).support_level = a.support_level := rfl

theorem scrub_resistance_level (a : TechnicalIndicators) : (scrub a).resistance_level = a.resistance_level := rfl

theorem scrub_volume_sma_20 (a : TechnicalIndicators) : (scrub a).volume_sma_20 = a.volume_sma_20 := rfl

theorem scrub_volume_ratio20 (a : TechnicalIndicators) : (scrub a).volume_ratio20 = a.volume_ratio20 := rfl

theorem scrub_overall_signal (a : TechnicalIndicators) : (scrub a).overall_signal = "hold" := rfl

theorem scrub_signal_strength (a : TechnicalIndicators) : (scrub a).signal_strength = none := rfl

theorem rb_sma_20 (sq : ℚ → ℚ) (bars : List Bar) (cp : ℚ) (vol : ℕ) (ti : TechnicalIndicators) :
    (run_body sq bars cp vol ti).sma_20 = (update_indicators sq bars cp vol ti).sma_20 := rfl

theorem rb_sma_50 (sq : ℚ → ℚ) (bars : List Bar) (cp : ℚ) (vol : ℕ) (ti : TechnicalIndicators) :
    (run_body sq bars cp vol ti).sma_50 = (update_indicators sq bars cp vol ti).sma_50 := rfl

theorem rb_sma_200 (sq : ℚ → ℚ) (bars : List Bar) (cp : ℚ) (vol : ℕ) (ti : TechnicalIndicators) :
    (run_body sq bars cp vol ti).sma_200 = (update_indicators sq bars cp vol ti).sma_200 := rfl

theorem rb_ema_12 (sq : ℚ → ℚ) (bars : List Bar) (cp : ℚ) (vol : ℕ) (ti : TechnicalIndicators) :
    (run_body sq bars cp vol ti).ema_12 = (update_indicators sq bars cp vol ti).ema_12 := rfl

theorem rb_ema_26 (sq : ℚ → ℚ) (bars : List Bar) (cp : ℚ) (vol : ℕ) (ti : TechnicalIndicators) :
    (run_body sq bars cp vol ti).ema_26 = (update_indicators sq bars cp vol ti).ema_26 := rfl

theorem rb_ema_200 (sq : ℚ → ℚ) (bars : List Bar) (cp : ℚ) (vol : ℕ) (ti : TechnicalIndicators) :
    (run_body sq bars cp vol ti).ema_200 = (update_indicators sq bars cp vol ti).ema_200 := rfl

theorem rb_ema_200_direction (sq : ℚ → ℚ) (bars : List Bar) (cp : ℚ) (vol : ℕ) (ti : TechnicalIndicators) :
    (run_body sq bars cp vol ti).ema_200_direction = (update_indicators sq bars cp vol ti).ema_200_direction := rfl

theorem rb_macd_line (sq : ℚ → ℚ) (bars : List Bar) (cp : ℚ) (vol : ℕ) (ti : TechnicalIndicators) :
    (run_body sq bars cp vol ti).macd_line = (update_indicators sq bars cp vol ti).macd_line := rfl

theorem rb_macd_signal (sq : ℚ → ℚ) (bars : List Bar) (cp : ℚ) (vol : ℕ) (ti : TechnicalIndicators) :
    (run_body sq bars cp vol ti).macd_signal = (update_indicators sq bars cp vol ti).macd_signal := rfl

theorem rb_macd_histogram (sq : ℚ → ℚ) (bars : List Bar) (cp : ℚ) (vol : ℕ) (ti : TechnicalIndicators) :
    (run_body sq bars cp vol ti).macd_histogram = (update_indicators sq bars cp vol ti).macd_histogram := rfl

theorem rb_rsi_14 (sq : ℚ → ℚ) (bars : List Bar) (cp : ℚ) (vol : ℕ) (ti : TechnicalIndicators) :
    (run_body sq bars cp vol ti).rsi_14 = (update_indicators sq bars cp vol ti).rsi_14 := rfl

theorem rb_bb_upper (sq : ℚ → ℚ) (bars : List Bar) (cp : ℚ) (vol : ℕ) (ti : TechnicalIndicators) :
    (run_body sq bars cp vol ti).bb_upper = (update_indicators sq bars cp vol ti).bb_upper := rfl

theorem rb_bb_middle (sq : ℚ → ℚ) (bars : List Bar) (cp : ℚ) (vol : ℕ) (ti : TechnicalIndicators) :
    (run_body sq bars cp vol ti).bb_middle = (update_indicators sq bars cp vol ti).bb_middle := rfl

theorem rb_bb_lower (sq : ℚ → ℚ) (bars : List Bar) (cp : ℚ) (vol : ℕ) (ti : TechnicalIndicators) :
    (run_body sq bars cp vol ti).bb_lower = (update_indicators sq bars cp vol ti).bb_lower := rfl

theorem rb_bb_width (sq : ℚ → ℚ) (bars : List Bar) (cp : ℚ) (vol : ℕ) (ti : TechnicalIndicators) :
    (run_body sq bars cp vol ti).bb_width = (update_indicators sq bars cp vol ti).bb_width := rfl

theorem rb_trend_direction (sq : ℚ → ℚ) (bars : List Bar) (cp : ℚ) (vol : ℕ) (ti : TechnicalIndicators) :
    (run_body sq bars cp vol ti).trend_direction = (analyze_trend (closesOf bars) (update_indicators sq bars cp vol ti)).1 := rfl

theorem rb_trend_strength (sq : ℚ → ℚ) (bars : List Bar) (cp : ℚ) (vol : ℕ) (ti : TechnicalIndicators) :
    (run_body sq bars cp vol ti).trend_strength = some (analyze_trend (closesOf bars) (update_indicators sq bars cp vol ti)).2 := rfl

theorem rb_price_vs_sma20 (sq : ℚ → ℚ) (bars : List Bar) (cp : ℚ) (vol : ℕ) (ti : TechnicalIndicators) :
    (run_body sq bars cp vol ti).price_vs_sma20 = (update_indicators sq bars cp vol ti).price_vs_sma20 := rfl

theorem rb_price_vs_sma50 (sq : ℚ → ℚ) (bars : List Bar) (cp : ℚ) (vol : ℕ) (ti : TechnicalIndicators) :
    (run_body sq bars cp vol ti).price_vs_sma50 = (update_indicators sq bars cp vol ti).price_vs_sma50 := rfl

theorem rb_price_vs_sma200 (sq : ℚ → ℚ) (bars : List Bar) (cp : ℚ) (vol : ℕ) (ti : TechnicalIndicators) :
    (run_body sq bars cp vol ti).price_vs_sma200 = (update_indicators sq bars cp vol ti).price_vs_sma200 := rfl

theorem rb_price_vs_ema200 (sq : ℚ → ℚ) (bars : List Bar) (cp : ℚ) (vol : ℕ) (ti : TechnicalIndicators) :
    (run_body sq bars cp vol ti).price_vs_ema200 = (update_indicators sq bars cp vol ti).price_vs_ema200 := rfl

theorem rb_support_level (sq : ℚ → ℚ) (bars : List Bar) (cp : ℚ) (vol : ℕ) (ti : TechnicalIndicators) :
    (run_body sq bars cp vol ti).support_level = (update_indicators sq bars cp vol ti).support_level := rfl

theorem rb_resistance_level (sq : ℚ → ℚ) (bars : List Bar) (cp : ℚ) (vol : ℕ) (ti : TechnicalIndicators) :
    (run_body sq bars cp vol ti).resistance_level = (update_indicators sq bars cp vol ti).resistance_level := rfl

theorem rb_volume_sma_20 (sq : ℚ → ℚ) (bars : List Bar) (cp : ℚ) (vol : ℕ) (ti : TechnicalIndicators) :
    (run_body sq bars cp vol ti).volume_sma_20 = (update_indicators sq bars cp vol ti).volume_sma_20 := rfl

theorem rb_volume_ratio20 (sq : ℚ → ℚ) (bars : List Bar) (cp : ℚ) (vol : ℕ) (ti : TechnicalIndicators) :
    (run_body sq bars cp vol ti).volume_ratio20 = (update_indicators sq bars cp vol ti).volume_ratio20 := rfl

theorem rb_overall_signal (sq : ℚ → ℚ) (bars : List Bar) (cp : ℚ) (vol : ℕ) (ti : TechnicalIndicators) :
    (run_body sq bars cp vol ti).overall_signal = (calculate_overall_signal (after_trend sq bars cp vol ti)).1 := rfl

theorem rb_signal_strength (sq : ℚ → ℚ) (bars : List Bar) (cp : ℚ) (vol : ℕ) (ti : TechnicalIndicators) :
    (run_body sq bars cp vol ti).signal_strength = some (calculate_overall_signal (after_trend sq bars cp vol ti)).2 := rfl

theorem at_rsi_14 (sq : ℚ → ℚ) (bars : List Bar) (cp : ℚ) (vol : ℕ) (ti : TechnicalIndicators) :
    (after_trend sq bars cp vol ti).rsi_14 = (update_indicators sq bars cp vol ti).rsi_14 := rfl

theorem at_macd_line (sq : ℚ → ℚ) (bars : List Bar) (cp : ℚ) (vol : ℕ) (ti : TechnicalIndicators) :
    (after_trend sq bars cp vol ti).macd_line = (update_indicators sq bars cp vol ti).macd_line := rfl

theorem at_macd_signal (sq : ℚ → ℚ) (bars : List Bar) (cp : ℚ) (vol : ℕ) (ti : TechnicalIndicators) :
    (after_trend sq bars cp vol ti).macd_signal = (update_indicators sq bars cp vol ti).macd_signal := rfl

theorem at_price_vs_sma20 (sq : ℚ → ℚ) (bars : List Bar) (cp : ℚ) (vol : ℕ) (ti : TechnicalIndicators) :
    (after_trend sq bars cp vol ti).price_vs_sma20 = (update_indicators sq bars cp vol ti).price_vs_sma20 := rfl

theorem at_trend_direction (sq : ℚ → ℚ) (bars : List Bar) (cp : ℚ) (vol : ℕ) (ti : TechnicalIndicators) :
    (after_trend sq bars cp vol ti).trend_direction = (analyze_trend (closesOf bars) (update_indicators sq bars cp vol ti)).1 := rfl

/-! ### Congruence and idempotence of the run body -/

/-- The trend analysis reads only the three SMA fields. -/
theorem analyze_trend_congr {closes : List ℚ} {a b : TechnicalIndicators}
    (h20 : a.sma_20 = b.sma_20) (h50 : a.sma_50 = b.sma_50) (h200 : a.sma_200 = b.sma_200) :
    analyze_trend closes a = analyze_trend closes b := by
  unfold analyze_trend trend_score
  rw [h20, h50, h200]

/-- The overall signal reads exactly these five fields. -/
theorem calc_signal_congr {a b : TechnicalIndicators}
    (h1 : a.rsi_14 = b.rsi_14) (h2 : a.macd_line = b.macd_line)
    (h3 : a.macd_signal = b.macd_signal) (h4 : a.trend_direction = b.trend_direction)
    (h5 : a.price_vs_sma20 = b.price_vs_sma20) :
    calculate_overall_signal a = calculate_overall_signal b := by
  unfold calculate_overall_signal signal_score
  rw [h1, h2, h3, h4, h5]

/-- Applying the update pass twice is a no-op on the scrubbed view: each
field is either freshly overwritten with the same value (the conditions and
the record values they read stabilise after one pass) or passed through. -/
theorem update_update (sq : ℚ → ℚ) (bars : List Bar) (cp : ℚ) (vol : ℕ)
    (ti : TechnicalIndicators) :
    scrub (update_indicators sq bars cp vol (update_indicators sq bars cp vol ti))
      = scrub (update_indicators sq bars cp vol ti) := by
  apply TechnicalIndicators.ext
  · simp only [scrub_sma_20, ui_sma_20]
    exact upd_sma_20_stable _ _
  · simp only [scrub_sma_50, ui_sma_50]
    exact upd_sma_50_stable _ _
  · simp only [scrub_sma_200, ui_sma_200]
    exact upd_sma_200_stable _ _
  · simp only [scrub_ema_12, ui_ema_12]
    exact upd_ema_12_stable _ _
  · simp only [scrub_ema_26, ui_ema_26]
    exact upd_ema_26_stable _ _
  · simp only [scrub_ema_200, ui_ema_200]
    exact upd_ema_200_stable _ _
  · simp only [scrub_ema_200_direction, ui_ema_200_direction, ui_sma_200]
    exact ema_200_direction_stable2 _ _ _
  · simp only [scrub_macd_line, ui_macd_line, ui_ema_12, ui_ema_26]
    exact macd_line_stable2 _ _ _ _
  · simp only [scrub_macd_signal, ui_macd_signal, ui_ema_12, ui_ema_26]
    exact macd_signal_stable2 _ _ _ _
  · simp only [scrub_macd_histogram, ui_macd_histogram, ui_ema_12, ui_ema_26]
    exact macd_histogram_stable2 _ _ _ _
  · simp only [scrub_rsi_14, ui_rsi_14]
    exact upd_rsi_14_stable _ _
  · simp only [scrub_bb_upper, ui_bb_upper]
    exact upd_bb_upper_stable _ _ _
  · simp only [scrub_bb_middle, ui_bb_middle]
    exact upd_bb_middle_stable _ _
  · simp only [scrub_bb_lower, ui_bb_lower]
    exact upd_bb_lower_stable _ _ _
  · simp only [scrub_bb_width, ui_bb_width]
    exact upd_bb_width_stable _ _ _
  · simp only [scrub_trend_direction]
  · simp only [scrub_trend_strength]
  · simp only [scrub_price_vs_sma20, ui_price_vs_sma20]
    exact upd_price_vs_sma20_stable _ _ _
  · simp only [scrub_price_vs_sma50, ui_price_vs_sma50]
    exact upd_price_vs_sma50_stable _ _ _
  · simp only [scrub_price_vs_sma200, ui_price_vs_sma200]
    exact upd_price_vs_sma200_stable _ _ _
  · simp only [scrub_price_vs_ema200, ui_price_vs_ema200, ui_ema_200]
    exact price_vs_ema200_stable2 _ _ _ _
  · simp only [scrub_support_level, ui_support_level]
    exact upd_support_level_stable _ _ _
  · simp only [scrub_resistance_level, ui_resistance_level]
    exact upd_resistance_level_stable _ _ _
  · simp only [scrub_volume_sma_20, ui_volume_sma_20]
    exact upd_volume_sma_stable _ _
  · simp only [scrub_volume_ratio20, ui_volume_ratio20, ui_volume_sma_20]
    exact volume_ratio20_stable2 _ _ _ _
  · simp only [scrub_overall_signal]
  · simp only [scrub_signal_strength]

/-- Two starting records whose update results agree on the scrubbed view
produce identical run outputs: the trend pass reads only SMA fields and the
signal pass only scrub-visible fields plus the freshly written trend. -/
theorem run_body_congr (sq : ℚ → ℚ) (bars : List Bar) (cp : ℚ) (vol : ℕ)
    (x y : TechnicalIndicators)
    (h : scrub (update_indicators sq bars cp vol x)
        = scrub (update_indicators sq bars cp vol y)) :
    run_body sq bars cp vol x = run_body sq bars cp vol y := by
  have e_sma_20 : (update_indicators sq bars cp vol x).sma_20
      = (update_indicators sq bars cp vol y).sma_20 := by
    have h2 := congrArg TechnicalIndicators.sma_20 h
    rwa [scrub_sma_20, scrub_sma_20] at h2
  have e_sma_50 : (update_indicators sq bars cp vol x).sma_50
      = (update_indicators sq bars cp vol y).sma_50 := by
    have h2 := congrArg TechnicalIndicators.sma_50 h
    rwa [scrub_sma_50, scrub_sma_50] at h2
  have e_sma_200 : (update_indicators sq bars cp vol x).sma_200
      = (update_indicators sq bars cp vol y).sma_200 := by
    have h2 := congrArg TechnicalIndicators.sma_200 h
    rwa [scrub_sma_200, scrub_sma_200] at h2
  have e_ema_12 : (update_indicators sq bars cp vol x).ema_12
      = (update_indicators sq bars cp vol y).ema_12 := by
    have h2 := congrArg TechnicalIndicators.ema_12 h
    rwa [scrub_ema_12, scrub_ema_12] at h2
  have e_ema_26 : (update_indicators sq bars cp vol x).ema_26
      = (update_indicators sq bars cp vol y).ema_26 := by
    have h2 := congrArg TechnicalIndicators.ema_26 h
    rwa [scrub_ema_26, scrub_ema_26] at h2
  have e_ema_200 : (update_indicators sq bars cp vol x).ema_200
      = (update_indicators sq bars cp vol y).ema_200 := by
    have h2 := congrArg TechnicalIndicators.ema_200 h
    rwa [scrub_ema_200, scrub_ema_200] at h2
  have e_ema_200_direction : (update_indicators sq bars cp vol x).ema_200_direction
      = (update_indicators sq bars cp vol y).ema_200_direction := by
    have h2 := congrArg TechnicalIndicators.ema_200_direction h
    rwa [scrub_ema_200_direction, scrub_ema_200_direction] at h2
  have e_macd_line : (update_indicators sq bars cp vol x).macd_line
      = (update_indicators sq bars cp vol y).macd_line := by
    have h2 := congrArg TechnicalIndicators.macd_line h
    rwa [scrub_macd_line, scrub_macd_line] at h2
  have e_macd_signal : (update_indicators sq bars cp vol x).macd_signal
      = (update_indicators sq bars cp vol y).macd_signal := by
    have h2 := congrArg TechnicalIndicators.macd_signal h
    rwa [scrub_macd_signal, scrub_macd_signal] at h2
  have e_macd_histogram : (update_indicators sq bars cp vol x).macd_histogram
      = (update_indicators sq bars cp vol y).macd_histogram := by
    have h2 := congrArg TechnicalIndicators.macd_histogram h
    rwa [scrub_macd_histogram, scrub_macd_histogram] at h2
  have e_rsi_14 : (update_indicators sq bars cp vol x).rsi_14
      = (update_indicators sq bars cp vol y).rsi_14 := by
    have h2 := congrArg TechnicalIndicators.rsi_14 h
    rwa [scrub_rsi_14, scrub_rsi_14] at h2
  have e_bb_upper : (update_indicators sq bars cp vol x).bb_upper
      = (update_indicators sq bars cp vol y).bb_upper := by
    have h2 := congrArg TechnicalIndicators.bb_upper h
    rwa [scrub_bb_upper, scrub_bb_upper] at h2
  have e_bb_middle : (update_indicators sq bars cp vol x).bb_middle
      = (update_indicators sq bars cp vol y).bb_middle := by
    have h2 := congrArg TechnicalIndicators.bb_middle h
    rwa [scrub_bb_middle, scrub_bb_middle] at h2
  have e_bb_lower : (update_indicators sq bars cp vol x).bb_lower
      = (update_indicators sq bars cp vol y).bb_lower := by
    have h2 := congrArg TechnicalIndicators.bb_lower h
    rwa [scrub_bb_lower, scrub_bb_lower] at h2
  have e_bb_width : (update_indicators sq bars cp vol x).bb_width
      = (update_indicators sq bars cp vol y).bb_width := by
    have h2 := congrArg TechnicalIndicators.bb_width h
    rwa [scrub_bb_width, scrub_bb_width] at h2
  have e_price_vs_sma20 : (update_indicators sq bars cp vol x).price_vs_sma20
      = (update_indicators sq bars cp vol y).price_vs_sma20 := by
    have h2 := congrArg TechnicalIndicators.price_vs_sma20 h
    rwa [scrub_price_vs_sma20, scrub_price_vs_sma20] at h2
  have e_price_vs_sma50 : (update_indicators sq bars cp vol x).price_vs_sma50
      = (update_indicators sq bars cp vol y).price_vs_sma50 := by
    have h2 := congrArg TechnicalIndicators.price_vs_sma50 h
    rwa [scrub_price_vs_sma50, scrub_price_vs_sma50] at h2
  have e_price_vs_sma200 : (update_indicators sq bars cp vol x).price_vs_sma200
      = (update_indicators sq bars cp vol y).price_vs_sma200 := by
    have h2 := congrArg TechnicalIndicators.price_vs_sma200 h
    rwa [scrub_price_vs_sma200, scrub_price_vs_sma200] at h2
  have e_price_vs_ema200 : (update_indicators sq bars cp vol x).price_vs_ema200
      = (update_indicators sq bars cp vol y).price_vs_ema200 := by
    have h2 := congrArg TechnicalIndicators.price_vs_ema200 h
    rwa [scrub_price_vs_ema200, scrub_price_vs_ema200] at h2
  have e_support_level : (update_indicators sq bars cp vol x).support_level
      = (update_indicators sq bars cp vol y).support_level := by
    have h2 := congrArg TechnicalIndicators.support_level h
    rwa [scrub_support_level, scrub_support_level] at h2
  have e_resistance_level : (update_indicators sq bars cp vol x).resistance_level
      = (update_indicators sq bars cp vol y).resistance_level := by
    have h2 := congrArg TechnicalIndicators.resistance_level h
    rwa [scrub_resistance_level, scrub_resistance_level] at h2
  have e_volume_sma_20 : (update_indicators sq bars cp vol x).volume_sma_20
      = (update_indicators sq bars cp vol y).volume_sma_20 := by
    have h2 := congrArg TechnicalIndicators.volume_sma_20 h
    rwa [scrub_volume_sma_20, scrub_volume_sma_20] at h2
  have e_volume_ratio20 : (update_indicators sq bars cp vol x).volume_ratio20
      = (update_indicators sq bars cp vol y).volume_ratio20 := by
    have h2 := congrArg TechnicalIndicators.volume_ratio20 h
    rwa [scrub_volume_ratio20, scrub_volume_ratio20] at h2
  have htr : analyze_trend (closesOf bars) (update_indicators sq bars cp vol x)
      = analyze_trend (closesOf bars) (update_indicators sq bars cp vol y) :=
    analyze_trend_congr e_sma_20 e_sma_50 e_sma_200
  have hsig : calculate_overall_signal (after_trend sq bars cp vol x)
      = calculate_overall_signal (after_trend sq bars cp vol y) := by
    refine calc_signal_congr ?_ ?_ ?_ ?_ ?_
    · rw [at_rsi_14, at_rsi_14]; exact e_rsi_14
    · rw [at_macd_line, at_macd_line]; exact e_macd_line
    · rw [at_macd_signal, at_macd_signal]; exact e_macd_signal
    · rw [at_trend_direction, at_trend_direction, htr]
    · rw [at_price_vs_sma20, at_price_vs_sma20]; exact e_price_vs_sma20
  apply TechnicalIndicators.ext
  · rw [rb_sma_20, rb_sma_20]; exact e_sma_20
  · rw [rb_sma_50, rb_sma_50]; exact e_sma_50
  · rw [rb_sma_200, rb_sma_200]; exact e_sma_200
  · rw [rb_ema_12, rb_ema_12]; exact e_ema_12
  · rw [rb_ema_26, rb_ema_26]; exact e_ema_26
  · rw [rb_ema_200, rb_ema_200]; exact e_ema_200
  · rw [rb_ema_200_direction, rb_ema_200_direction]; exact e_ema_200_direction
  · rw [rb_macd_line, rb_macd_line]; exact e_macd_line
  · rw [rb_macd_signal, rb_macd_signal]; exact e_macd_signal
  · rw [rb_macd_histogram, rb_macd_histogram]; exact e_macd_histogram
  · rw [rb_rsi_14, rb_rsi_14]; exact e_rsi_14
  · rw [rb_bb_upper, rb_bb_upper]; exact e_bb_upper
  · rw [rb_bb_middle, rb_bb_middle]; exact e_bb_middle
  · rw [rb_bb_lower, rb_bb_lower]; exact e_bb_lower
  · rw [rb_bb_width, rb_bb_width]; exact e_bb_width
  · rw [rb_trend_direction, rb_trend_direction, htr]
  · rw [rb_trend_strength, rb_trend_strength, htr]
  · rw [rb_price_vs_sma20, rb_price_vs_sma20]; exact e_price_vs_sma20
  · rw [rb_price_vs_sma50, rb_price_vs_sma50]; exact e_price_vs_sma50
  · rw [rb_price_vs_sma200, rb_price_vs_sma200]; exact e_price_vs_sma200
  · rw [rb_price_vs_ema200, rb_price_vs_ema200]; exact e_price_vs_ema200
  · rw [rb_support_level, rb_support_level]; exact e_support_level
  · rw [rb_resistance_level, rb_resistance_level]; exact e_resistance_level
  · rw [rb_volume_sma_20, rb_volume_sma_20]; exact e_volume_sma_20
  · rw [rb_volume_ratio20, rb_volume_ratio20]; exact e_volume_ratio20
  · rw [rb_overall_signal, rb_overall_signal, hsig]
  · rw [rb_signal_strength, rb_signal_strength, hsig]

/-- The update pass never reads the four scrubbed fields, so running it after
the full body or after just the update pass agrees on the scrubbed view. -/
theorem scrub_update_of_run_body (sq : ℚ → ℚ) (bars : List Bar) (cp : ℚ) (vol : ℕ)
    (ti : TechnicalIndicators) :
    scrub (update_indicators sq bars cp vol (run_body sq bars cp vol ti))
      = scrub (update_indicators sq bars cp vol (update_indicators sq bars cp vol ti)) := by
  apply TechnicalIndicators.ext
  · simp only [scrub_sma_20, ui_sma_20, rb_sma_20]
  · simp only [scrub_sma_50, ui_sma_50, rb_sma_50]
  · simp only [scrub_sma_200, ui_sma_200, rb_sma_200]
  · simp only [scrub_ema_12, ui_ema_12, rb_ema_12]
  · simp only [scrub_ema_26, ui_ema_26, rb_ema_26]
  · simp only [scrub_ema_200, ui_ema_200, rb_ema_200]
  · simp only [scrub_ema_200_direction, ui_ema_200_direction, rb_sma_200, rb_ema_200_direction]
  · simp only [scrub_macd_line, ui_macd_line, rb_ema_12, rb_ema_26, rb_macd_line]
  · simp only [scrub_macd_signal, ui_macd_signal, rb_ema_12, rb_ema_26, rb_macd_signal]
  · simp only [scrub_macd_histogram, ui_macd_histogram, rb_ema_12, rb_ema_26, rb_macd_histogram]
  · simp only [scrub_rsi_14, ui_rsi_14, rb_rsi_14]
  · simp only [scrub_bb_upper, ui_bb_upper, rb_bb_upper]
  · simp only [scrub_bb_middle, ui_bb_middle, rb_bb_middle]
  · simp only [scrub_bb_lower, ui_bb_lower, rb_bb_lower]
  · simp only [scrub_bb_width, ui_bb_width, rb_bb_width]
  · simp only [scrub_trend_direction]
  · simp only [scrub_trend_strength]
  · simp only [scrub_price_vs_sma20, ui_price_vs_sma20, rb_price_vs_sma20]
  · simp only [scrub_price_vs_sma50, ui_price_vs_sma50, rb_price_vs_sma50]
  · simp only [scrub_price_vs_sma200, ui_price_vs_sma200, rb_price_vs_sma200]
  · simp only [scrub_price_vs_ema200, ui_price_vs_ema200, rb_ema_200, rb_price_vs_ema200]
  · simp only [scrub_support_level, ui_support_level, rb_support_level]
  · simp only [scrub_resistance_level, ui_resistance_level, rb_resistance_level]
  · simp only [scrub_volume_sma_20, ui_volume_sma_20, rb_volume_sma_20]
  · simp only [scrub_volume_ratio20, ui_volume_ratio20, rb_volume_sma_20, rb_volume_ratio20]
  · simp only [scrub_overall_signal]
  · simp only [scrub_signal_strength]

/-- Running the body twice equals running it once. -/
theorem run_body_idem (sq : ℚ → ℚ) (bars : List Bar) (cp : ℚ) (vol : ℕ)
    (ti : TechnicalIndicators) :
    run_body sq bars cp vol (run_body sq bars cp vol ti) = run_body sq bars cp vol ti := by
  refine run_body_congr sq bars cp vol _ _ ?_
  calc scrub (update_indicators sq bars cp vol (run_body sq bars cp vol ti))
      = scrub (update_indicators sq bars cp vol (update_indicators sq bars cp vol ti)) :=
        scrub_update_of_run_body sq bars cp vol ti
    _ = scrub (update_indicators sq bars cp vol ti) := update_update sq bars cp vol ti

/-! ### Length bookkeeping and the skip guard -/

theorem closesOf_length (bars : List Bar) :
    (closesOf bars).length = min 200 bars.length := by
  simp only [closesOf, List.length_map, lastN, List.length_drop]
  omega

theorem volumesOf_length (bars : List Bar) :
    (volumesOf bars).length = min 200 bars.length := by
  simp only [volumesOf, List.length_map, lastN, List.length_drop]
  omega

theorem highsOf_length (bars : List Bar) :
    (highsOf bars).length = min 200 bars.length := by
  simp only [highsOf, List.length_map, lastN, List.length_drop]
  omega

theorem lowsOf_length (bars : List Bar) :
    (lowsOf bars).length = min 200 bars.length := by
  simp only [lowsOf, List.length_map, lastN, List.length_drop]
  omega

/-- With at least 20 bars the per-stock handler runs the full body. -/
theorem handle_stock_not_short {sq : ℚ → ℚ} {bars : List Bar} {cp : ℚ} {vol : ℕ}
    {ti : TechnicalIndicators} (h : 20 ≤ bars.length) :
    handle_stock sq bars cp vol ti = run_body sq bars cp vol ti := by
  unfold handle_stock
  rw [if_neg]
  simp only [lastN, List.length_drop]
  omega

/-- With fewer than 20 bars the per-stock handler is skipped outright. -/
theorem handle_stock_short {sq : ℚ → ℚ} {bars : List Bar} {cp : ℚ} {vol : ℕ}
    {ti : TechnicalIndicators} (h : bars.length < 20) :
    handle_stock sq bars cp vol ti = ti := by
  unfold handle_stock
  rw [if_pos]
  simp only [lastN, List.length_drop]
  omega

/-- Every close taken from a replicated bar equals that bar's close. -/
theorem closesOf_replicate_flat (n : ℕ) (b : Bar) :
    ∀ x ∈ closesOf (List.replicate n b), x = b.close := by
  intro x hx
  simp only [closesOf] at hx
  obtain ⟨bb, hb, rfl⟩ := List.mem_map.mp hx
  rw [List.eq_of_mem_replicate (mem_lastN hb)]

/-- With at least 35 closes the spec's signal formula coincides with the
code's filtered value list averaged over its last 9 entries. -/
theorem macd_signal_spec_eq {closes : List ℚ} (h : 35 ≤ closes.length) :
    macd_signal_spec closes = listMean (lastN 9 (macdValues closes)) := by
  unfold macd_signal_spec
  rw [macdValues_eq_of_35 h,
    Nat.max_eq_right (by omega : 26 ≤ closes.length - 9),
    (by omega : closes.length - (closes.length - 9) = 9)]

/-! ### Old-value irrelevance of the per-field updates when their guards hold -/

theorem upd_sma_20_irrel {closes : List ℚ} (h : 20 ≤ closes.length) (o o2 : Option ℚ) :
    upd_sma_20 closes o = upd_sma_20 closes o2 := by
  unfold upd_sma_20
  rw [if_pos h, if_pos h]

theorem upd_price_vs_sma20_irrel {closes : List ℚ} {cp : ℚ} (h : 20 ≤ closes.length)
    (o o2 : Option ℚ) : upd_price_vs_sma20 closes cp o = upd_price_vs_sma20 closes cp o2 := by
  unfold upd_price_vs_sma20
  rw [if_pos h, if_pos h]

theorem upd_sma_50_irrel {closes : List ℚ} (h : 50 ≤ closes.length) (o o2 : Option ℚ) :
    upd_sma_50 closes o = upd_sma_50 closes o2 := by
  unfold upd_sma_50
  rw [if_pos h, if_pos h]

theorem upd_price_vs_sma50_irrel {closes : List ℚ} {cp : ℚ} (h : 50 ≤ closes.length)
    (o o2 : Option ℚ) : upd_price_vs_sma50 closes cp o = upd_price_vs_sma50 closes cp o2 := by
  unfold upd_price_vs_sma50
  rw [if_pos h, if_pos h]

theorem upd_sma_200_irrel {closes : List ℚ} (h : 200 ≤ closes.length) (o o2 : Option ℚ) :
    upd_sma_200 closes o = upd_sma_200 closes o2 := by
  unfold upd_sma_200
  rw [if_pos h, if_pos h]

theorem upd_price_vs_sma200_irrel {closes : List ℚ} {cp : ℚ} (h : 200 ≤ closes.length)
    (o o2 : Option ℚ) :
    upd_price_vs_sma200 closes cp o = upd_price_vs_sma200 closes cp o2 := by
  unfold upd_price_vs_sma200
  rw [if_pos h, if_pos h]

theorem upd_ema_12_irrel {closes : List ℚ} (h : 12 ≤ closes.length) (o o2 : Option ℚ) :
    upd_ema_12 closes o = upd_ema_12 closes o2 := by
  unfold upd_ema_12
  rw [if_pos h, if_pos h]

theorem upd_ema_26_irrel {closes : List ℚ} (h : 26 ≤ closes.length) (o o2 : Option ℚ) :
    upd_ema_26 closes o = upd_ema_26 closes o2 := by
  unfold upd_ema_26
  rw [if_pos h, if_pos h]

theorem upd_ema_200_irrel {closes : List ℚ} (h : 200 ≤ closes.length) (o o2 : Option ℚ) :
    upd_ema_200 closes o = upd_ema_200 closes o2 := by
  unfold upd_ema_200
  rw [if_pos h, if_pos h]

theorem upd_ema_200_direction_irrel {closes : List ℚ} {s : Option ℚ}
    (h : 200 ≤ closes.length) (o o2 : Option String) :
    upd_ema_200_direction closes s o = upd_ema_200_direction closes s o2 := by
  unfold upd_ema_200_direction
  rw [if_pos h, if_pos h]

theorem upd_price_vs_ema200_irrel {closes : List ℚ} {cp : ℚ} {e : Option ℚ}
    (h : 200 ≤ closes.length) (hcp : cp ≠ 0) (he : truthy e) (o o2 : Option ℚ) :
    upd_price_vs_ema200 closes cp e o = upd_price_vs_ema200 closes cp e o2 := by
  unfold upd_price_vs_ema200
  rw [if_pos h, if_pos h, if_pos (And.intro hcp he), if_pos (And.intro hcp he)]

theorem upd_macd_line_irrel {e12 e26 : Option ℚ} (hg : truthy e12 ∧ truthy e26)
    (o o2 : Option ℚ) : upd_macd_line e12 e26 o = upd_macd_line e12 e26 o2 := by
  unfold upd_macd_line
  rw [if_pos hg, if_pos hg]

theorem upd_macd_signal_irrel {closes : List ℚ} {e12 e26 : Option ℚ}
    (hg : truthy e12 ∧ truthy e26) (h35 : 35 ≤ closes.length)
    (hmv : macdValues closes ≠ []) (o o2 : Option ℚ) :
    upd_macd_signal closes e12 e26 o = upd_macd_signal closes e12 e26 o2 := by
  unfold upd_macd_signal
  rw [if_pos hg, if_pos hg, if_pos h35, if_pos h35, if_pos hmv, if_pos hmv]

theorem upd_macd_histogram_irrel {closes : List ℚ} {e12 e26 : Option ℚ}
    (hg : truthy e12 ∧ truthy e26) (h35 : 35 ≤ closes.length)
    (hmv : macdValues closes ≠ []) (o o2 : Option ℚ) :
    upd_macd_histogram closes e12 e26 o = upd_macd_histogram closes e12 e26 o2 := by
  unfold upd_macd_histogram
  rw [if_pos hg, if_pos hg, if_pos h35, if_pos h35, if_pos hmv, if_pos hmv]

theorem upd_rsi_14_irrel {closes : List ℚ} (h : 15 ≤ closes.length) (o o2 : Option ℚ) :
    upd_rsi_14 closes o = upd_rsi_14 closes o2 := by
  unfold upd_rsi_14
  rw [if_pos h, if_pos h]

theorem upd_bb_middle_irrel {closes : List ℚ} (h : 20 ≤ closes.length) (o o2 : Option ℚ) :
    upd_bb_middle closes o = upd_bb_middle closes o2 := by
  unfold upd_bb_middle
  rw [if_pos h, if_pos h]

theorem upd_bb_upper_irrel {sq : ℚ → ℚ} {closes : List ℚ} (h : 20 ≤ closes.length)
    (o o2 : Option ℚ) : upd_bb_upper sq closes o = upd_bb_upper sq closes o2 := by
  unfold upd_bb_upper
  rw [if_pos h, if_pos h]

theorem upd_bb_lower_irrel {sq : ℚ → ℚ} {closes : List ℚ} (h : 20 ≤ closes.length)
    (o o2 : Option ℚ) : upd_bb_lower sq closes o = upd_bb_lower sq closes o2 := by
  unfold upd_bb_lower
  rw [if_pos h, if_pos h]

theorem upd_bb_width_irrel {sq : ℚ → ℚ} {closes : List ℚ} (h : 20 ≤ closes.length)
    (o o2 : Option ℚ) : upd_bb_width sq closes o = upd_bb_width sq closes o2 := by
  unfold upd_bb_width
  rw [if_pos h, if_pos h]

theorem upd_support_level_irrel {lows highs : List ℚ}
    (h : 20 ≤ lows.length ∧ 20 ≤ highs.length) (o o2 : Option ℚ) :
    upd_support_level lows highs o = upd_support_level lows highs o2 := by
  unfold upd_support_level
  rw [if_pos h, if_pos h]

theorem upd_resistance_level_irrel {lows highs : List ℚ}
    (h : 20 ≤ lows.length ∧ 20 ≤ highs.length) (o o2 : Option ℚ) :
    upd_resistance_level lows highs o = upd_resistance_level lows highs o2 := by
  unfold upd_resistance_level
  rw [if_pos h, if_pos h]

theorem upd_volume_sma_irrel {volumes : List ℕ} (h : 20 ≤ volumes.length)
    (o o2 : Option ℕ) : upd_volume_sma volumes o = upd_volume_sma volumes o2 := by
  unfold upd_volume_sma
  rw [if_pos h, if_pos h]

theorem upd_volume_ratio20_irrel {volumes : List ℕ} {sv : ℕ} {vsma : Option ℕ}
    (h : 20 ≤ volumes.length ∧ sv ≠ 0 ∧ 0 < vsma.getD 0) (o o2 : Option ℚ) :
    upd_volume_ratio20 volumes sv vsma o = upd_volume_ratio20 volumes sv vsma o2 := by
  unfold upd_volume_ratio20
  rw [if_pos h, if_pos h]

/-- When every guard holds (200 bars, positive closes, nonzero current price
and volume, positive volume SMA) the update pass overwrites every field, so
its scrubbed result does not depend on the starting record. -/
theorem update_fresh (sq : ℚ → ℚ) (bars : List Bar) (cp : ℚ) (vol : ℕ)
    (x y : TechnicalIndicators) (h200 : 200 ≤ bars.length)
    (hpos : ∀ b ∈ bars, 0 < b.close) (hcp : cp ≠ 0) (hvol : vol ≠ 0)
    (hvs : 0 < (lastN 20 (volumesOf bars)).sum / 20) :
    scrub (update_indicators sq bars cp vol x)
      = scrub (update_indicators sq bars cp vol y) := by
  have hcl : (closesOf bars).length = 200 := by rw [closesOf_length]; omega
  have hhl : (highsOf bars).length = 200 := by rw [highsOf_length]; omega
  have hll : (lowsOf bars).length = 200 := by rw [lowsOf_length]; omega
  have hvl : (volumesOf bars).length = 200 := by rw [volumesOf_length]; omega
  have hposc : ∀ z ∈ closesOf bars, 0 < z := by
    intro z hz
    simp only [closesOf] at hz
    obtain ⟨b, hb, rfl⟩ := List.mem_map.mp hz
    exact hpos b (mem_lastN hb)
  have he12 : 0 < calculate_ema (closesOf bars) 12 :=
    calculate_ema_pos hposc (by norm_num) (by omega)
  have he26 : 0 < calculate_ema (closesOf bars) 26 :=
    calculate_ema_pos hposc (by norm_num) (by omega)
  have he200 : 0 < calculate_ema (closesOf bars) 200 :=
    calculate_ema_pos hposc (by norm_num) (by omega)
  have hE12 : ∀ o, upd_ema_12 (closesOf bars) o
      = some (calculate_ema (closesOf bars) 12) := by
    intro o
    unfold upd_ema_12
    rw [if_pos (by omega)]
  have hE26 : ∀ o, upd_ema_26 (closesOf bars) o
      = some (calculate_ema (closesOf bars) 26) := by
    intro o
    unfold upd_ema_26
    rw [if_pos (by omega)]
  have hE200 : ∀ o, upd_ema_200 (closesOf bars) o
      = some (calculate_ema (closesOf bars) 200) := by
    intro o
    unfold upd_ema_200
    rw [if_pos (by omega)]
  have hS200 : ∀ o, upd_sma_200 (closesOf bars) o
      = some (listMean (lastN 200 (closesOf bars))) := by
    intro o
    unfold upd_sma_200
    rw [if_pos (by omega)]
  have hVS : ∀ o, upd_volume_sma (volumesOf bars) o
      = some ((lastN 20 (volumesOf bars)).sum / 20) := by
    intro o
    unfold upd_volume_sma
    rw [if_pos (by omega)]
  have hgate : truthy (some (calculate_ema (closesOf bars) 12))
      ∧ truthy (some (calculate_ema (closesOf bars) 26)) := by
    constructor
    · simpa [truthy] using he12.ne'
    · simpa [truthy] using he26.ne'
  apply TechnicalIndicators.ext
  · simp only [scrub_sma_20, ui_sma_20]
    exact upd_sma_20_irrel (by omega) _ _
  · simp only [scrub_sma_50, ui_sma_50]
    exact upd_sma_50_irrel (by omega) _ _
  · simp only [scrub_sma_200, ui_sma_200]
    exact upd_sma_200_irrel (by omega) _ _
  · simp only [scrub_ema_12, ui_ema_12]
    exact upd_ema_12_irrel (by omega) _ _
  · simp only [scrub_ema_26, ui_ema_26]
    exact upd_ema_26_irrel (by omega) _ _
  · simp only [scrub_ema_200, ui_ema_200]
    exact upd_ema_200_irrel (by omega) _ _
  · simp only [scrub_ema_200_direction, ui_ema_200_direction, hS200]
    exact upd_ema_200_direction_irrel (by omega) _ _
  · simp only [scrub_macd_line, ui_macd_line, hE12, hE26]
    exact upd_macd_line_irrel hgate _ _
  · simp only [scrub_macd_signal, ui_macd_signal, hE12, hE26]
    exact upd_macd_signal_irrel hgate (by omega) (macdValues_ne_nil_of_35 (by omega)) _ _
  · simp only [scrub_macd_histogram, ui_macd_histogram, hE12, hE26]
    exact upd_macd_histogram_irrel hgate (by omega) (macdValues_ne_nil_of_35 (by omega)) _ _
  · simp only [scrub_rsi_14, ui_rsi_14]
    exact upd_rsi_14_irrel (by omega) _ _
  · simp only [scrub_bb_upper, ui_bb_upper]
    exact upd_bb_upper_irrel (by omega) _ _
  · simp only [scrub_bb_middle, ui_bb_middle]
    exact upd_bb_middle_irrel (by omega) _ _
  · simp only [scrub_bb_lower, ui_bb_lower]
    exact upd_bb_lower_irrel (by omega) _ _
  · simp only [scrub_bb_width, ui_bb_width]
    exact upd_bb_width_irrel (by omega) _ _
  · simp only [scrub_trend_direction]
  · simp only [scrub_trend_strength]
  · simp only [scrub_price_vs_sma20, ui_price_vs_sma20]
    exact upd_price_vs_sma20_irrel (by omega) _ _
  · simp only [scrub_price_vs_sma50, ui_price_vs_sma50]
    exact upd_price_vs_sma50_irrel (by omega) _ _
  · simp only [scrub_price_vs_sma200, ui_price_vs_sma200]
    exact upd_price_vs_sma200_irrel (by omega) _ _
  · simp only [scrub_price_vs_ema200, ui_price_vs_ema200, hE200]
    exact upd_price_vs_ema200_irrel (by omega) hcp
      (by simpa [truthy] using he200.ne') _ _
  · simp only [scrub_support_level, ui_support_level]
    exact upd_support_level_irrel ⟨by omega, by omega⟩ _ _
  · simp only [scrub_resistance_level, ui_resistance_level]
    exact upd_resistance_level_irrel ⟨by omega, by omega⟩ _ _
  · simp only [scrub_volume_sma_20, ui_volume_sma_20]
    exact upd_volume_sma_irrel (by omega) _ _
  · simp only [scrub_volume_ratio20, ui_volume_ratio20, hVS]
    exact upd_volume_ratio20_irrel ⟨by omega, hvol, by simpa using hvs⟩ _ _
  · simp only [scrub_overall_signal]
  · simp only [scrub_signal_strength]

/-! ### The claims -/

/-- C1 (counterexample): on a 15-bar series the engine stores nothing at all:
`ema_12` stays null even though 12 ≤ 15, and `rsi_14` stays null even though
15 bars satisfy the RSI minimum — refuting independent per-indicator gating
below 20 bars. -/
theorem c1_counterexample :
    (List.replicate 15 (⟨1, 1, 1, 1⟩ : Bar)).length = 15
    ∧ (handle_stock (fun _ => 0) (List.replicate 15 ⟨1, 1, 1, 1⟩) 1 1 {}).ema_12 = none
    ∧ (handle_stock (fun _ => 0) (List.replicate 15 ⟨1, 1, 1, 1⟩) 1 1 {}).rsi_14 = none :=
  ⟨rfl, rfl, rfl⟩

/-- C1 (amended): for any bar series shorter than 20 bars the engine skips
the security wholesale — the stored record is left exactly as it was, and no
indicator is computed even when its own minimum window (e.g. 12 for EMA(12),
15 for RSI(14)) is met; per-indicator gating applies only from 20 bars up. -/
theorem c1_skip_below_20 (sq : ℚ → ℚ) (bars : List Bar) (cp : ℚ) (vol : ℕ)
    (ti : TechnicalIndicators) (h : bars.length < 20) :
    handle_stock sq bars cp vol ti = ti :=
  handle_stock_short h

/-- C1 (witness): a concrete 15-bar series is skipped unchanged. -/
theorem c1_witness :
    handle_stock (fun _ => 0) (List.replicate 15 ⟨2, 2, 2, 3⟩) 1 1 {} = {} :=
  c1_skip_below_20 _ _ _ _ _ (by simp)

/-- C3 (counterexample): with 20 bars, a previously stored `sma_50` value
survives the run — the field is not reset to null. -/
theorem c3_counterexample :
    (handle_stock (fun _ => 0) (List.replicate 20 ⟨1, 1, 1, 1⟩) 1 1
        { sma_50 := some 999 }).sma_50 = some 999 := rfl

/-- C3 (amended): for 20 ≤ N < 50 bars, every field whose own minimum bar
count exceeds N (`sma_50`, `sma_200`, `price_vs_sma50`, `price_vs_sma200`,
`ema_200`, `ema_200_direction`, `price_vs_ema200`) is left untouched by the
run, retaining whatever value the record held before (null only if never
set); runs do not overwrite wholesale. -/
theorem c3_stale_fields_retained (sq : ℚ → ℚ) (bars : List Bar) (cp : ℚ) (vol : ℕ)
    (ti : TechnicalIndicators) (h20 : 20 ≤ bars.length) (h50 : bars.length < 50) :
    (handle_stock sq bars cp vol ti).sma_50 = ti.sma_50
    ∧ (handle_stock sq bars cp vol ti).sma_200 = ti.sma_200
    ∧ (handle_stock sq bars cp vol ti).price_vs_sma50 = ti.price_vs_sma50
    ∧ (handle_stock sq bars cp vol ti).price_vs_sma200 = ti.price_vs_sma200
    ∧ (handle_stock sq bars cp vol ti).ema_200 = ti.ema_200
    ∧ (handle_stock sq bars cp vol ti).ema_200_direction = ti.ema_200_direction
    ∧ (handle_stock sq bars cp vol ti).price_vs_ema200 = ti.price_vs_ema200 := by
  have hcl : (closesOf bars).length < 50 := by rw [closesOf_length]; omega
  rw [handle_stock_not_short h20]
  refine ⟨?_, ?_, ?_, ?_, ?_, ?_, ?_⟩
  · rw [rb_sma_50, ui_sma_50, upd_sma_50, if_neg (by omega)]
  · rw [rb_sma_200, ui_sma_200, upd_sma_200, if_neg (by omega)]
  · rw [rb_price_vs_sma50, ui_price_vs_sma50, upd_price_vs_sma50, if_neg (by omega)]
  · rw [rb_price_vs_sma200, ui_price_vs_sma200, upd_price_vs_sma200, if_neg (by omega)]
  · rw [rb_ema_200, ui_ema_200, upd_ema_200, if_neg (by omega)]
  · rw [rb_ema_200_direction, ui_ema_200_direction, upd_ema_200_direction,
      if_neg (by omega)]
  · rw [rb_price_vs_ema200, ui_price_vs_ema200, upd_price_vs_ema200, if_neg (by omega)]

/-- C3 (witness): a concrete 30-bar run keeps a stale `sma_50`. -/
theorem c3_witness :
    (handle_stock (fun _ => 0) (List.replicate 30 ⟨1, 1, 1, 1⟩) 1 1
        { sma_50 := some 7 }).sma_50 = some 7 :=
  (c3_stale_fields_retained _ _ _ _ _ (by simp) (by simp)).1

/-- C4 (counterexample): two runs on identical bars and identical current
price, differing only in the prior snapshot contents, save different field
values — the output is not a pure function of bar history plus current
price. -/
theorem c4_counterexample :
    (handle_stock (fun _ => 0) (List.replicate 20 ⟨1, 1, 1, 1⟩) 1 1 {}).sma_50 = none
    ∧ (handle_stock (fun _ => 0) (List.replicate 20 ⟨1, 1, 1, 1⟩) 1 1
        { sma_50 := some 999 }).sma_50 = some 999 :=
  ⟨rfl, rfl⟩

/-- C6 (counterexample): with a stored RSI of exactly 0 (deeply oversold,
reachable from a strictly falling series) and no other indicators, the claim
predicts a score of +2 and hence a `buy` signal, but the code's truthiness
gate drops the RSI rung (`Decimal('0')` is falsy) and yields `hold`. -/
theorem c6_counterexample :
    calculate_overall_signal { rsi_14 := some 0 } = ("hold", 50)
    ∧ signal_label (claimed_overall_score { rsi_14 := some 0 }) = ("buy", 24) := by
  constructor
  · decide
  · decide

/-- C6 (amended): the overall-signal label and strength equal the signal
table applied to the score summing: the first matching RSI rung whenever RSI
is present and nonzero, the MACD comparison whenever both line and signal are
present and nonzero, the trend contribution, and the price-position rung
whenever the stored percentage is present and nonzero. -/
theorem c6_score_decomposition (ti : TechnicalIndicators) :
    calculate_overall_signal ti = signal_label (amended_overall_score ti) := by
  unfold calculate_overall_signal
  congr 1
  unfold signal_score amended_overall_score
  have h1 : (if truthy ti.rsi_14 then
      (if ti.rsi_14.getD 0 < 30 then 2 else if ti.rsi_14.getD 0 < 40 then 1
       else if ti.rsi_14.getD 0 > 70 then -2 else if ti.rsi_14.getD 0 > 60 then -1 else 0)
      else 0)
      = (match ti.rsi_14 with
        | none => (0 : ℤ)
        | some rsi =>
          if rsi = 0 then 0
          else if rsi < 30 then 2 else if rsi < 40 then 1
          else if rsi > 70 then -2 else if rsi > 60 then -1 else 0) := by
    cases hr : ti.rsi_14 with
    | none => simp [truthy]
    | some r =>
      by_cases h0 : r = 0
      · simp [truthy, h0]
      · simp [truthy, h0]
  have h2 : (if truthy ti.macd_line ∧ truthy ti.macd_signal then
      (if ti.macd_line.getD 0 > ti.macd_signal.getD 0 then 1 else -1) else 0)
      = (match ti.macd_line, ti.macd_signal with
        | some l, some s => if l = 0 ∨ s = 0 then (0 : ℤ) else if l > s then 1 else -1
        | _, _ => 0) := by
    cases hl : ti.macd_line with
    | none => simp [truthy]
    | some l =>
      cases hs : ti.macd_signal with
      | none => simp [truthy]
      | some s =>
        by_cases hl0 : l = 0
        · simp [truthy, hl0]
        · by_cases hs0 : s = 0
          · simp [truthy, hl0, hs0]
          · simp [truthy, hl0, hs0]
  have h4 : (if truthy ti.price_vs_sma20 then
      (if ti.price_vs_sma20.getD 0 > 5 then 1
       else if ti.price_vs_sma20.getD 0 < -5 then -1 else 0)
      else 0)
      = (match ti.price_vs_sma20 with
        | none => (0 : ℤ)
        | some pp =>
          if pp = 0 then 0
          else if pp > 5 then 1 else if pp < -5 then -1 else 0) := by
    cases hp : ti.price_vs_sma20 with
    | none => simp [truthy]
    | some pp =>
      by_cases h0 : pp = 0
      · simp [truthy, h0]
      · simp [truthy, h0]
  rw [h1, h2, h4]

/-- C7 (confirmed): the trend and overall-signal labels and strengths are
pure functions of their integer scores with exactly the documented
thresholds: trend score ≥ 3 gives strong_bullish with strength
min(100, 20·|s|) (so score 3 gives 60), score 0 gives neutral with 0;
signal score ≥ 4 / ≥ 2 / ≤ −4 / ≤ −2 give strong_buy / buy / strong_sell /
sell with strengths min(100, 15·|s|) for strong tiers and 12·|s| for plain
tiers, and 50 + 5·|s| for hold. -/
theorem c7_label_tables (s : ℤ) :
    (3 ≤ s → trend_label s = ("strong_bullish", ((min 100 (s.natAbs * 20) : ℕ) : ℚ)))
    ∧ (s = 0 → trend_label s = ("neutral", 0))
    ∧ (4 ≤ s → signal_label s = ("strong_buy", ((min 100 (s.natAbs * 15) : ℕ) : ℚ)))
    ∧ (2 ≤ s ∧ s < 4 → signal_label s = ("buy", ((s.natAbs * 12 : ℕ) : ℚ)))
    ∧ (s ≤ -4 → signal_label s = ("strong_sell", ((min 100 (s.natAbs * 15) : ℕ) : ℚ)))
    ∧ (-4 < s ∧ s ≤ -2 → signal_label s = ("sell", ((s.natAbs * 12 : ℕ) : ℚ)))
    ∧ (-2 < s ∧ s < 2 → signal_label s = ("hold", ((50 + s.natAbs * 5 : ℕ) : ℚ)))
    ∧ trend_label 3 = ("strong_bullish", 60) := by
  refine ⟨?_, ?_, ?_, ?_, ?_, ?_, ?_, ?_⟩
  · intro h
    unfold trend_label
    rw [if_pos h]
  · intro h
    subst h
    norm_num [trend_label]
  · intro h
    unfold signal_label
    rw [if_pos h]
  · intro h
    unfold signal_label
    rw [if_neg (by omega), if_pos h.1]
  · intro h
    unfold signal_label
    rw [if_neg (by omega), if_neg (by omega), if_pos h]
  · intro h
    unfold signal_label
    rw [if_neg (by omega), if_neg (by omega), if_neg (by omega), if_pos h.2]
  · intro h
    unfold signal_label
    rw [if_neg (by omega), if_neg (by omega), if_neg (by omega), if_neg (by omega)]
  · norm_num [trend_label]

/-- C7 (witness): concrete scores hit each mentioned tier with the
documented strengths. -/
theorem c7_witness :
    trend_label 3 = ("strong_bullish", 60) ∧ trend_label 0 = ("neutral", 0)
    ∧ signal_label 4 = ("strong_buy", 60) ∧ signal_label 2 = ("buy", 24)
    ∧ signal_label (-4) = ("strong_sell", 60) ∧ signal_label (-2) = ("sell", 24)
    ∧ signal_label 1 = ("hold", 55) := by
  refine ⟨?_, ?_, ?_, ?_, ?_, ?_, ?_⟩
  · have h := (c7_label_tables 3).1 (by norm_num)
    simpa using h
  · have h := (c7_label_tables 0).2.1 rfl
    simpa using h
  · have h := (c7_label_tables 4).2.2.1 (by norm_num)
    simpa using h
  · have h := (c7_label_tables 2).2.2.2.1 ⟨by norm_num, by norm_num⟩
    simpa using h
  · have h := (c7_label_tables (-4)).2.2.2.2.1 (by norm_num)
    simpa using h
  · have h := (c7_label_tables (-2)).2.2.2.2.2.1 ⟨by norm_num, by norm_num⟩
    simpa using h
  · have h := (c7_label_tables 1).2.2.2.2.2.2.1 ⟨by norm_num, by norm_num⟩
    simpa using h

/-- C8 (confirmed): for every close series the RSI lies in [0, 100], and a
monotonically increasing series of 15 closes (every period-over-period change
positive, so the average loss is 0) gives exactly 100. -/
theorem c8_rsi_range_and_monotone :
    (∀ prices : List ℚ, 0 ≤ calculate_rsi prices 14 ∧ calculate_rsi prices 14 ≤ 100)
    ∧ (∀ prices : List ℚ, prices.length = 15 → prices.Chain' (· < ·) →
        calculate_rsi prices 14 = 100) := by
  constructor
  · exact fun prices => calculate_rsi_bounds prices 14
  · intro prices hlen hch
    exact calculate_rsi_eq_100 (by omega)
      (rsi_losses_zero_of_pos (rsi_changes_pos_of_chain hch))

/-- C8 (witness): RSI of the concrete increasing series 1..15 is 100. -/
theorem c8_witness :
    calculate_rsi [1, 2, 3, 4, 5, 6, 7, 8, 9, 10, 11, 12, 13, 14, 15] 14 = 100 := by
  refine c8_rsi_range_and_monotone.2 _ rfl ?_
  norm_num [List.chain'_cons]

/-- C9 (confirmed): running the engine twice in succession on the same bar
series and current price yields an identical stored record after the second
run as after the first (idempotence). -/
theorem c9_idempotent (sq : ℚ → ℚ) (bars : List Bar) (cp : ℚ) (vol : ℕ)
    (ti : TechnicalIndicators) :
    handle_stock sq bars cp vol (handle_stock sq bars cp vol ti)
      = handle_stock sq bars cp vol ti := by
  unfold handle_stock
  by_cases h : (lastN 200 bars).length < 20
  · simp only [if_pos h]
  · simp only [if_neg h]
    exact run_body_idem sq bars cp vol ti

/-- C2 (counterexample): on a flat 20-bar series at close 5 the stored RSI is
100, not the neutral fallback 50: the all-zero changes give average loss 0,
which triggers the explicit 100 branch. -/
theorem c2_counterexample :
    (handle_stock (fun _ => 0) (List.replicate 20 ⟨5, 5, 5, 1⟩) 5 1 {}).rsi_14
      = some 100 := by
  rw [handle_stock_not_short (by simp), rb_rsi_14, ui_rsi_14, upd_rsi_14,
    if_pos (by rw [closesOf_length]; simp)]
  rw [calculate_rsi_flat (by rw [closesOf_length]; simp)
    (closesOf_replicate_flat 20 ⟨5, 5, 5, 1⟩)]

/-- C2 (amended): for a constant close series of at least 20 bars the
Bollinger bands collapse (upper = lower = middle = the constant, since the
sample variance is 0 and any square root maps 0 to 0), and the stored
RSI(14) is 100 — the zero-average-loss fallback — not 50. -/
theorem c2_flat_series (sq : ℚ → ℚ) (bars : List Bar) (cp : ℚ) (vol : ℕ)
    (ti : TechnicalIndicators) (c : ℚ) (h20 : 20 ≤ bars.length)
    (hflat : ∀ b ∈ bars, b.close = c) (hsq : sq 0 = 0) :
    (handle_stock sq bars cp vol ti).bb_middle = some c
    ∧ (handle_stock sq bars cp vol ti).bb_upper = some c
    ∧ (handle_stock sq bars cp vol ti).bb_lower = some c
    ∧ (handle_stock sq bars cp vol ti).rsi_14 = some 100 := by
  have hlen : 20 ≤ (closesOf bars).length := by rw [closesOf_length]; omega
  have hflatc : ∀ x ∈ closesOf bars, x = c := by
    intro x hx
    simp only [closesOf] at hx
    obtain ⟨b, hb, rfl⟩ := List.mem_map.mp hx
    exact hflat b (mem_lastN hb)
  have hflat20 : ∀ x ∈ lastN 20 (closesOf bars), x = c :=
    fun x hx => hflatc x (mem_lastN hx)
  have hne : lastN 20 (closesOf bars) ≠ [] := lastN_ne_nil (by omega) (by omega)
  have hmean : listMean (lastN 20 (closesOf bars)) = c := listMean_const hflat20 hne
  have hvar : sampleVariance (lastN 20 (closesOf bars)) = 0 :=
    sampleVariance_of_const hflat20
  rw [handle_stock_not_short h20]
  refine ⟨?_, ?_, ?_, ?_⟩
  · rw [rb_bb_middle, ui_bb_middle, upd_bb_middle, if_pos hlen, hmean]
  · rw [rb_bb_upper, ui_bb_upper, upd_bb_upper, if_pos hlen, hmean, hvar, hsq]
    norm_num
  · rw [rb_bb_lower, ui_bb_lower, upd_bb_lower, if_pos hlen, hmean, hvar, hsq]
    norm_num
  · rw [rb_rsi_14, ui_rsi_14, upd_rsi_14, if_pos (by omega)]
    rw [calculate_rsi_flat (by omega) hflatc]

/-- C2 (witness): a concrete flat 25-bar series at close 3 collapses the
bands to 3 and stores RSI 100. -/
theorem c2_witness :
    (handle_stock (fun _ => 0) (List.replicate 25 ⟨3, 3, 3, 2⟩) 3 2 {}).bb_upper = some 3
    ∧ (handle_stock (fun _ => 0) (List.replicate 25 ⟨3, 3, 3, 2⟩) 3 2 {}).rsi_14
      = some 100 := by
  have h := c2_flat_series (fun _ => 0) (List.replicate 25 ⟨3, 3, 3, 2⟩) 3 2 {} 3
    (by simp) (fun b hb => by rw [List.eq_of_mem_replicate hb]) rfl
  exact ⟨h.2.1, h.2.2.2⟩

/-- C4 (amended): when every guard is satisfied — at least 200 bars, strictly
positive closes, nonzero current price and stock volume, positive 20-day
volume SMA — every field is freshly overwritten and the saved record is a
pure function of the bars, price and volume, independent of the prior
snapshot contents. -/
theorem c4_pure_when_full (sq : ℚ → ℚ) (bars : List Bar) (cp : ℚ) (vol : ℕ)
    (x y : TechnicalIndicators) (h200 : 200 ≤ bars.length)
    (hpos : ∀ b ∈ bars, 0 < b.close) (hcp : cp ≠ 0) (hvol : vol ≠ 0)
    (hvs : 0 < (lastN 20 (volumesOf bars)).sum / 20) :
    handle_stock sq bars cp vol x = handle_stock sq bars cp vol y := by
  rw [handle_stock_not_short (by omega), handle_stock_not_short (by omega)]
  exact run_body_congr sq bars cp vol x y
    (update_fresh sq bars cp vol x y h200 hpos hcp hvol hvs)

/-- C4 (witness): on 200 positive bars two runs from different prior records
save the same snapshot. -/
theorem c4_witness :
    handle_stock (fun _ => 0) (List.replicate 200 ⟨1, 1, 1, 1⟩) 1 1 {}
      = handle_stock (fun _ => 0) (List.replicate 200 ⟨1, 1, 1, 1⟩) 1 1
        { sma_50 := some 999 } :=
  c4_pure_when_full _ _ _ _ _ _ (by simp) (by decide) (by norm_num) (by norm_num)
    (by decide)

/-- C5 (counterexample): with 35 bars whose closes are all 0, EMA(12) is the
falsy Decimal 0, the whole MACD block is skipped and no signal is stored —
while the claimed 9-sample mean of recomputed MACD values is 0.  The claim's
equation fails for this series. -/
theorem c5_counterexample :
    (handle_stock (fun _ => 0) (List.replicate 35 ⟨0, 0, 0, 1⟩) 1 1 {}).macd_signal = none
    ∧ macd_signal_spec (closesOf (List.replicate 35 ⟨0, 0, 0, 1⟩)) = 0 := by
  have hlen : (closesOf (List.replicate 35 (⟨0, 0, 0, 1⟩ : Bar))).length = 35 := by
    rw [closesOf_length]
    simp
  have hflat := closesOf_replicate_flat 35 (⟨0, 0, 0, 1⟩ : Bar)
  constructor
  · rw [handle_stock_not_short (by simp), rb_macd_signal, ui_macd_signal,
      upd_macd_signal, if_neg]
    intro hg
    have h0 : upd_ema_12 (closesOf (List.replicate 35 ⟨0, 0, 0, 1⟩))
        (TechnicalIndicators.ema_12 {}) = some 0 := by
      unfold upd_ema_12
      rw [if_pos (by omega), calculate_ema_const hflat (by norm_num) (by omega)]
    rw [h0] at hg
    simp [truthy] at hg
  · rw [macd_signal_spec_eq (by omega)]
    refine listMean_zero ?_
    intro x hx
    have hx2 := mem_lastN hx
    rw [macdValues_eq_of_35 (by omega)] at hx2
    obtain ⟨i, hi, rfl⟩ := List.mem_map.mp hx2
    have hge := (List.mem_range'_1.mp hi).1
    have h1 : calculate_ema ((closesOf (List.replicate 35 ⟨0, 0, 0, 1⟩)).take i) 12
        = (⟨0, 0, 0, 1⟩ : Bar).close := by
      refine calculate_ema_const (fun z hz => hflat z (List.mem_of_mem_take hz))
        (by norm_num) ?_
      rw [List.length_take]
      omega
    have h2 : calculate_ema ((closesOf (List.replicate 35 ⟨0, 0, 0, 1⟩)).take i) 26
        = (⟨0, 0, 0, 1⟩ : Bar).close := by
      refine calculate_ema_const (fun z hz => hflat z (List.mem_of_mem_take hz))
        (by norm_num) ?_
      rw [List.length_take]
      omega
    rw [h1, h2]
    ring

/-- C5 (amended): whenever at least 35 closes exist and both freshly computed
EMAs are nonzero (in particular for positive closes), the stored MACD line is
EMA(12) − EMA(26) over the used series, the stored signal equals the spec's
9-sample mean of freshly recomputed MACD values, and the histogram is line −
signal; with fewer than 35 closes neither signal nor histogram is computed
(both retain their prior values). -/
theorem c5_macd_signal_approximation (sq : ℚ → ℚ) (bars : List Bar) (cp : ℚ) (vol : ℕ)
    (ti : TechnicalIndicators) :
    (35 ≤ (closesOf bars).length →
      calculate_ema (closesOf bars) 12 ≠ 0 →
      calculate_ema (closesOf bars) 26 ≠ 0 →
      (handle_stock sq bars cp vol ti).macd_line
        = some (calculate_ema (closesOf bars) 12 - calculate_ema (closesOf bars) 26)
      ∧ (handle_stock sq bars cp vol ti).macd_signal
        = some (macd_signal_spec (closesOf bars))
      ∧ (handle_stock sq bars cp vol ti).macd_histogram
        = some ((calculate_ema (closesOf bars) 12 - calculate_ema (closesOf bars) 26)
            - macd_signal_spec (closesOf bars)))
    ∧ ((closesOf bars).length < 35 →
      (handle_stock sq bars cp vol ti).macd_signal = ti.macd_signal
      ∧ (handle_stock sq bars cp vol ti).macd_histogram = ti.macd_histogram) := by
  constructor
  · intro h35 h12 h26
    have hb : 20 ≤ bars.length := by
      have := closesOf_length bars
      omega
    have hE12 : upd_ema_12 (closesOf bars) ti.ema_12
        = some (calculate_ema (closesOf bars) 12) := by
      unfold upd_ema_12
      rw [if_pos (by omega)]
    have hE26 : upd_ema_26 (closesOf bars) ti.ema_26
        = some (calculate_ema (closesOf bars) 26) := by
      unfold upd_ema_26
      rw [if_pos (by omega)]
    have hgate : truthy (some (calculate_ema (closesOf bars) 12))
        ∧ truthy (some (calculate_ema (closesOf bars) 26)) := by
      constructor
      · simpa [truthy] using h12
      · simpa [truthy] using h26
    rw [handle_stock_not_short hb]
    refine ⟨?_, ?_, ?_⟩
    · rw [rb_macd_line, ui_macd_line, hE12, hE26, upd_macd_line, if_pos hgate]
      simp
    · rw [rb_macd_signal, ui_macd_signal, hE12, hE26, upd_macd_signal, if_pos hgate,
        if_pos h35, if_pos (macdValues_ne_nil_of_35 h35), macd_signal_spec_eq h35]
    · rw [rb_macd_histogram, ui_macd_histogram, hE12, hE26, upd_macd_histogram,
        if_pos hgate, if_pos h35, if_pos (macdValues_ne_nil_of_35 h35),
        macd_signal_spec_eq h35]
      simp
  · intro h35
    by_cases hb : 20 ≤ bars.length
    · rw [handle_stock_not_short hb]
      constructor
      · rw [rb_macd_signal, ui_macd_signal, upd_macd_signal]
        by_cases hg : truthy (upd_ema_12 (closesOf bars) ti.ema_12)
            ∧ truthy (upd_ema_26 (closesOf bars) ti.ema_26)
        · rw [if_pos hg, if_neg (by omega)]
        · rw [if_neg hg]
      · rw [rb_macd_histogram, ui_macd_histogram, upd_macd_histogram]
        by_cases hg : truthy (upd_ema_12 (closesOf bars) ti.ema_12)
            ∧ truthy (upd_ema_26 (closesOf bars) ti.ema_26)
        · rw [if_pos hg, if_neg (by omega)]
        · rw [if_neg hg]
    · rw [handle_stock_short (by omega)]
      exact ⟨rfl, rfl⟩

/-- C5 (witness): a concrete flat 35-bar series at close 1 satisfies the
hypotheses and stores the spec's signal value. -/
theorem c5_witness :
    (handle_stock (fun _ => 0) (List.replicate 35 ⟨1, 1, 1, 1⟩) 1 1 {}).macd_signal
      = some (macd_signal_spec (closesOf (List.replicate 35 ⟨1, 1, 1, 1⟩))) := by
  have hlen : (closesOf (List.replicate 35 (⟨1, 1, 1, 1⟩ : Bar))).length = 35 := by
    rw [closesOf_length]
    simp
  have hflat := closesOf_replicate_flat 35 (⟨1, 1, 1, 1⟩ : Bar)
  have h12 : calculate_ema (closesOf (List.replicate 35 ⟨1, 1, 1, 1⟩)) 12
      = (⟨1, 1, 1, 1⟩ : Bar).close :=
    calculate_ema_const hflat (by norm_num) (by omega)
  have h26 : calculate_ema (closesOf (List.replicate 35 ⟨1, 1, 1, 1⟩)) 26
      = (⟨1, 1, 1, 1⟩ : Bar).close :=
    calculate_ema_const hflat (by norm_num) (by omega)
  exact ((c5_macd_signal_approximation (fun _ => 0) (List.replicate 35 ⟨1, 1, 1, 1⟩)
    1 1 {}).1 (by omega) (by rw [h12]; norm_num) (by rw [h26]; norm_num)).2.1

/-- C10 (confirmed): for at least 200 bars with strictly positive closes the
stored EMA(200) direction is one of up, down or sideways — the neutral
fallback is unreachable because SMA(200) is computed in the same run and is
positive, hence truthy. -/
theorem c10_direction_never_neutral (sq : ℚ → ℚ) (bars : List Bar) (cp : ℚ) (vol : ℕ)
    (ti : TechnicalIndicators) (h200 : 200 ≤ bars.length)
    (hpos : ∀ b ∈ bars, 0 < b.close) :
    (handle_stock sq bars cp vol ti).ema_200_direction = some "up"
    ∨ (handle_stock sq bars cp vol ti).ema_200_direction = some "down"
    ∨ (handle_stock sq bars cp vol ti).ema_200_direction = some "sideways" := by
  have hcl : (closesOf bars).length = 200 := by rw [closesOf_length]; omega
  have hposc : ∀ z ∈ closesOf bars, 0 < z := by
    intro z hz
    simp only [closesOf] at hz
    obtain ⟨b, hb, rfl⟩ := List.mem_map.mp hz
    exact hpos b (mem_lastN hb)
  have hmean : 0 < listMean (lastN 200 (closesOf bars)) := by
    refine listMean_pos (fun z hz => hposc z (mem_lastN hz)) ?_
    exact lastN_ne_nil (by norm_num) (by omega)
  have hsma : upd_sma_200 (closesOf bars) ti.sma_200
      = some (listMean (lastN 200 (closesOf bars))) := by
    unfold upd_sma_200
    rw [if_pos (by omega)]
  have hprev : prev_ema_200 (closesOf bars) = none := by
    unfold prev_ema_200
    rw [if_neg (by omega)]
  rw [handle_stock_not_short (by omega), rb_ema_200_direction, ui_ema_200_direction,
    upd_ema_200_direction, if_pos (by omega : 200 ≤ (closesOf bars).length), hprev,
    if_neg (by simp [truthy]), hsma, if_pos (by simpa [truthy] using hmean.ne')]
  split_ifs with h1 h2
  · exact Or.inl rfl
  · exact Or.inr (Or.inl rfl)
  · exact Or.inr (Or.inr rfl)

/-- C10 (witness): a concrete 200-bar positive series stores a direction from
the three-way comparison. -/
theorem c10_witness :
    (handle_stock (fun _ => 0) (List.replicate 200 ⟨1, 1, 1, 1⟩) 1 1
        {}).ema_200_direction = some "up"
    ∨ (handle_stock (fun _ => 0) (List.replicate 200 ⟨1, 1, 1, 1⟩) 1 1
        {}).ema_200_direction = some "down"
    ∨ (handle_stock (fun _ => 0) (List.replicate 200 ⟨1, 1, 1, 1⟩) 1 1
        {}).ema_200_direction = some "sideways" :=
  c10_direction_never_neutral _ _ _ _ _ (by simp) (by decide)

end Trading
